import Mathlib

/-!
Verification of the `adventure-works-sales-analysis` helper modules.

This file gives a shallow embedding of the two source modules
(`src/db.py` and `src/plot.py`) and proves properties of the embedded
functions.

Modelling conventions:

* A pandas `DataFrame` is a list of column names together with a list of
  rows; each row is a list of cells aligned with the column list.  The
  default `RangeIndex` of the source frames is represented by row
  position.
* Cells (`Val`) are integers, strings, or datetimes.  Datetimes carry a
  month code (12 * year + (month - 1)); `pd.to_datetime` on a numeric
  cell yields the datetime with that code, and on a string cell raises,
  matching pandas' behaviour on unparseable text (free-text date parsing
  is outside the model, so numeric codes stand for parseable inputs).
* Python exceptions are the explicit error results `PlotError.keyError`
  (missing column lookups) and `PlotError.valueError` (validation and
  parse failures); a function body is sequenced exactly as in the
  source, so the first failing statement determines the error.
* Python objects live in an explicit `Heap`; a frame argument is a
  reference into the heap.  `df.copy()` allocates a fresh frame,
  `d[col] = ...` writes through the reference being assigned, and
  methods such as `sort_values` return freshly allocated frames.  This
  makes the "no mutation of the caller's frame" contract a real
  statement.
* `DataFrame.sort_values(col, ascending=b)` is modelled on pandas'
  `nargsort`: an ascending argsort of the key column, reversed when
  `ascending=False`.  The ascending argsort is taken to be stable
  (a structural stable sort, `List.insertionSort`); pandas' default kind
  is stable for the small frames these notebook helpers receive
  (numpy's introsort falls back to insertion sort below 16 elements).
* Matplotlib calls are represented by the chart value a call would
  draw: the bar/point lists in draw order together with the title and
  label strings.  Pure geometry (figure size, bar widths and offsets,
  colours, transparency) is floating point presentation data and is not
  modelled.
-/

deriving instance DecidableEq for Except

namespace AdvWorks

/-- Char comparison by code point, as Python compares characters. -/
def charLe (a b : Char) : Bool := a.toNat ≤ b.toNat

/-- Lexicographic code-point comparison of strings, as Python compares
strings.  (Defined on the character lists so that it evaluates inside
`decide`.) -/
def lexLe : List Char → List Char → Bool
  | [], _ => true
  | _ :: _, [] => false
  | a :: as, b :: bs =>
      if a.toNat < b.toNat then true
      else if b.toNat < a.toNat then false
      else lexLe as bs

/-- A cell of a `DataFrame`: an integer, a string, or a datetime value
(identified by its month code `12 * year + month - 1`). -/
inductive Val where
  | i : Int → Val
  | s : String → Val
  | d : Int → Val
deriving DecidableEq, Repr

/-- Numeric tag used to make the cross-type comparison below total. -/
def Val.tag : Val → Nat
  | .i _ => 0
  | .s _ => 1
  | .d _ => 2

/-- Total comparison on cells; within one type it is the natural order
(codepoint-lexicographic for strings, numeric otherwise).  Python's
comparison of mixed types raises; the cross-type branch (by tag) only
exists to keep the comparator total, and is never exercised by the
homogeneous columns the source sorts. -/
def Val.leB : Val → Val → Bool
  | .i a, .i b => a ≤ b
  | .s a, .s b => lexLe a.data b.data
  | .d a, .d b => a ≤ b
  | a, b => a.tag < b.tag

/-- Rendering of a cell by `astype(str)`. -/
def Val.toStr : Val → String
  | .i n => toString n
  | .s t => t
  | .d n => toString n

/-- Errors a chart helper can raise: `keyError` for a missing column,
`valueError` for validation and parse failures. -/
inductive PlotError where
  | keyError : String → PlotError
  | valueError : String → PlotError
deriving DecidableEq, Repr

/-- Month/date code of a cell, as `pd.to_datetime` computes it: numeric
cells convert directly, datetimes are returned unchanged, and string
cells raise (parseable text is represented by numeric codes, see the
module docstring). -/
def Val.dateCode : Val → Except PlotError Int
  | .i n => .ok n
  | .d n => .ok n
  | .s t => .error (.valueError ("could not convert string to datetime: " ++ t))

/-- `pd.to_datetime` on a single cell. -/
def Val.toDatetime (v : Val) : Except PlotError Val := v.dateCode.map .d

/-- Month/date code of a cell known to be a coerced datetime; total
companion of `Val.dateCode` used after a column-wide `to_datetime`
(where every cell is a `.d`). -/
def Val.dateCodeD : Val → Int
  | .i n => n
  | .d n => n
  | .s _ => 0

/-- Left-to-right effectful map over `Except`, the semantics of applying
a fallible elementwise operation to a column: the first failing element
raises. -/
def mapExcept (f : α → Except PlotError β) : List α → Except PlotError (List β)
  | [] => .ok []
  | a :: l =>
      match f a with
      | .error e => .error e
      | .ok b =>
          match mapExcept f l with
          | .error e => .error e
          | .ok bs => .ok (b :: bs)

/-- A pandas `DataFrame` with its default positional index: named
columns and rows of cells aligned with the column list. -/
structure DataFrame where
  cols : List String
  rows : List (List Val)
deriving DecidableEq, Repr

/-- Cell of a row at a column position (out-of-range reads never occur
on well-formed frames; they default to `Val.i 0`). -/
def cell (r : List Val) (i : Nat) : Val := r.getD i (.i 0)

/-- Position of a column name in the column list. -/
def DataFrame.colIdx? (df : DataFrame) (c : String) : Option Nat :=
  df.cols.findIdx? (· = c)

/-- Column lookup `df[c]`: the column's cells top to bottom, or a
`KeyError` when the name is absent. -/
def DataFrame.col? (df : DataFrame) (c : String) : Except PlotError (List Val) :=
  match df.colIdx? c with
  | none => .error (.keyError c)
  | some i => .ok (df.rows.map (fun r => cell r i))

/-- Column assignment `df[c] = vs`: overwrites an existing column in
place, or appends a new column on the right, as pandas `__setitem__`
does.  (The sources only assign columns of matching length.) -/
def DataFrame.setCol (df : DataFrame) (c : String) (vs : List Val) : DataFrame :=
  match df.colIdx? c with
  | some i => ⟨df.cols, (df.rows.zip vs).map (fun p => p.1.set i p.2)⟩
  | none => ⟨df.cols ++ [c], (df.rows.zip vs).map (fun p => p.1 ++ [p.2])⟩

/-- Key comparison between two rows on the cells in column position `i`. -/
def rowLe (i : Nat) (r s : List Val) : Bool := Val.leB (cell r i) (cell s i)

/-- The row-key order as a decidable relation, for the sort below. -/
def rowRel (i : Nat) (r s : List Val) : Prop := rowLe i r s = true

instance (i : Nat) : DecidableRel (rowRel i) :=
  fun a b => inferInstanceAs (Decidable (rowLe i a b = true))

/-- `df.sort_values(c, ascending=asc)`, modelled on pandas `nargsort`: a
stable ascending argsort of the key column (`List.insertionSort`),
reversed when `ascending=False`; a missing key column raises `KeyError`. -/
def DataFrame.sortValues (df : DataFrame) (c : String) (ascending : Bool) :
    Except PlotError DataFrame :=
  match df.colIdx? c with
  | none => .error (.keyError c)
  | some i =>
      let sorted := df.rows.insertionSort (rowRel i)
      .ok ⟨df.cols, if ascending then sorted else sorted.reverse⟩

/-! ### The Python heap

Frames are heap objects and the chart helpers receive references, so
that copying versus mutating the caller's frame is observable. -/

/-- A reference to a frame on the heap. -/
abbrev Ref := Nat

/-- The heap of allocated frames; a `Ref` indexes into it. -/
abbrev Heap := List DataFrame

/-- Dereference (unallocated references read as an empty frame). -/
def Heap.read (h : Heap) (r : Ref) : DataFrame := h.getD r ⟨[], []⟩

/-- Allocate a fresh frame, returning the extended heap and the new
reference. -/
def Heap.alloc (h : Heap) (df : DataFrame) : Heap × Ref := (h ++ [df], h.length)

/-- Overwrite the frame a reference points to (the effect of
`d[col] = ...` on the object `d` references). -/
def Heap.write (h : Heap) (r : Ref) (df : DataFrame) : Heap := h.set r df

/-! ### Chart values

Each plotting helper's matplotlib calls are summarised by the chart it
would draw: the data series in draw order plus the text attributes.
Geometry (figure size, bar width/offsets, marker, alpha, tick rotation)
is floating point presentation data and is not modelled. -/

/-- Chart drawn by `bar_vertical`: `ax.bar(d[x].astype(str), d[y])`. -/
structure BarChart where
  bars : List (String × Val)
  title : String
  xlabel : String
  ylabel : String
deriving DecidableEq, Repr

/-- Chart drawn by `bar_horizontal`: `ax.barh(d[y].astype(str), d[x])`
followed by `ax.invert_yaxis()`. -/
structure HBarChart where
  bars : List (String × Val)
  invertedY : Bool
  title : String
  xlabel : String
  ylabel : String
deriving DecidableEq, Repr

/-- Chart drawn by `line_plot_monthly`: the `(date, value)` points in
draw order plus the month-locator interval. -/
structure LineChart where
  points : List (Val × Val)
  title : String
  xlabel : String
  ylabel : String
  monthInterval : Int
deriving DecidableEq, Repr

/-- Chart drawn by `grouped_bar_wide`: the category tick labels and one
`(legend label, heights)` series per value column, in draw order. -/
structure GroupedBarChart where
  xticks : List String
  series : List (String × List Val)
  title : String
  xlabel : String
  ylabel : String
  legendTitle : String
deriving DecidableEq, Repr

/-- Chart drawn by `scatter_plot`: `ax.scatter(df[x], df[y])`. -/
structure ScatterChart where
  points : List (Val × Val)
  title : String
  xlabel : String
  ylabel : String
deriving DecidableEq, Repr

/-- Rich-text summary displayed by `insight_monthly_trend`. -/
structure Insight where
  direction : String
  startMonth : String
  startVal : Val
  endMonth : String
  endVal : Val
  peakMonth : String
  peakVal : Val
  lowMonth : String
  lowVal : Val
deriving DecidableEq, Repr

/-! ### `src/plot.py` -/

/-- Embedding of `plot.bar_vertical`.  Mirrors the body statement by
statement: `d = df.copy()`; `if sort_by: d = d.sort_values(sort_by,
ascending=ascending)` (an empty string is falsy, as in Python); then
`ax.bar(d[x].astype(str), d[y])` with the title and the
column-defaulted axis labels. -/
def bar_vertical (h : Heap) (df : Ref) (x y title : String)
    (xlabel ylabel : Option String) (sort_by : Option String) (ascending : Bool) :
    Except PlotError BarChart × Heap :=
  let p := h.alloc (h.read df)
  let step : Except PlotError (Heap × Ref) :=
    match sort_by with
    | none => .ok (p.1, p.2)
    | some sc =>
        if sc = "" then .ok (p.1, p.2)
        else
          match (p.1.read p.2).sortValues sc ascending with
          | .error e => .error e
          | .ok d2 =>
              let q := p.1.alloc d2
              .ok (q.1, q.2)
  match step with
  | .error e => (.error e, p.1)
  | .ok (h2, d) =>
      match (h2.read d).col? x with
      | .error e => (.error e, h2)
      | .ok xs =>
          match (h2.read d).col? y with
          | .error e => (.error e, h2)
          | .ok ys =>
              (.ok { bars := (xs.map Val.toStr).zip ys, title := title,
                     xlabel := xlabel.getD x, ylabel := ylabel.getD y }, h2)

/-- Embedding of `plot.bar_horizontal`:
`d = df.copy().sort_values(x, ascending=not sort_desc)`, then
`ax.barh(d[y].astype(str), d[x])` and `ax.invert_yaxis()`. -/
def bar_horizontal (h : Heap) (df : Ref) (x y title : String)
    (xlabel ylabel : Option String) (sort_desc : Bool) :
    Except PlotError HBarChart × Heap :=
  let p := h.alloc (h.read df)
  match (p.1.read p.2).sortValues x (!sort_desc) with
  | .error e => (.error e, p.1)
  | .ok d2 =>
      let q := p.1.alloc d2
      match (q.1.read q.2).col? y with
      | .error e => (.error e, q.1)
      | .ok ys =>
          match (q.1.read q.2).col? x with
          | .error e => (.error e, q.1)
          | .ok xs =>
              (.ok { bars := (ys.map Val.toStr).zip xs, invertedY := true,
                     title := title, xlabel := xlabel.getD x,
                     ylabel := ylabel.getD y }, q.1)

/-- Embedding of `plot.line_plot_monthly`: `d = df.copy()`;
`d[date_col] = pd.to_datetime(d[date_col])` (a write through the copy's
reference); `d = d.sort_values(date_col)`; then
`plt.plot(d[date_col], d[value_col])`. -/
def line_plot_monthly (h : Heap) (df : Ref) (date_col value_col title : String)
    (xlabel ylabel : String) (month_interval : Int) :
    Except PlotError LineChart × Heap :=
  let p := h.alloc (h.read df)
  match (p.1.read p.2).col? date_col with
  | .error e => (.error e, p.1)
  | .ok dv =>
      match mapExcept Val.toDatetime dv with
      | .error e => (.error e, p.1)
      | .ok dv2 =>
          let h2 := p.1.write p.2 ((p.1.read p.2).setCol date_col dv2)
          match (h2.read p.2).sortValues date_col true with
          | .error e => (.error e, h2)
          | .ok d2 =>
              let q := h2.alloc d2
              match (q.1.read q.2).col? date_col with
              | .error e => (.error e, q.1)
              | .ok ds =>
                  match (q.1.read q.2).col? value_col with
                  | .error e => (.error e, q.1)
                  | .ok vs =>
                      (.ok { points := ds.zip vs, title := title,
                             xlabel := xlabel, ylabel := ylabel,
                             monthInterval := month_interval }, q.1)

/-- Embedding of `plot.grouped_bar_wide`: `d = df.copy()`;
`labels = d[x].astype(str).tolist()`; `legend_labels` defaults to
`y_cols`; the length-mismatch `ValueError` is raised before any figure
is created; then one `ax.bar(..., d[col].values, label=str(lab))` per
`(col, lab)` in `zip(y_cols, legend_labels)`. -/
def grouped_bar_wide (h : Heap) (df : Ref) (x : String) (y_cols : List String)
    (title : String) (xlabel : Option String) (ylabel legend_title : String)
    (y_col_labels : Option (List String)) :
    Except PlotError GroupedBarChart × Heap :=
  let p := h.alloc (h.read df)
  match (p.1.read p.2).col? x with
  | .error e => (.error e, p.1)
  | .ok xv =>
      let labels := xv.map Val.toStr
      let n := y_cols.length
      let legend_labels := match y_col_labels with
        | some ls => ls
        | none => y_cols
      if legend_labels.length ≠ n then
        (.error (.valueError "y_col_labels must have the same length as y_cols"), p.1)
      else
        match mapExcept
            (fun cl => ((p.1.read p.2).col? cl.1).map (fun vs => (cl.2, vs)))
            (y_cols.zip legend_labels) with
        | .error e => (.error e, p.1)
        | .ok series =>
            (.ok { xticks := labels, series := series, title := title,
                   xlabel := xlabel.getD x, ylabel := ylabel,
                   legendTitle := legend_title }, p.1)

/-- Embedding of `plot.scatter_plot`: reads `df[x]` and `df[y]` directly
(no copy) and draws `ax.scatter(df[x], df[y])`. -/
def scatter_plot (h : Heap) (df : Ref) (x y title : String)
    (xlabel ylabel : Option String) :
    Except PlotError ScatterChart × Heap :=
  match (h.read df).col? x with
  | .error e => (.error e, h)
  | .ok xs =>
      match (h.read df).col? y with
      | .error e => (.error e, h)
      | .ok ys =>
          (.ok { points := xs.zip ys, title := title,
                 xlabel := xlabel.getD x, ylabel := ylabel.getD y }, h)

/-- Zero-padding to two digits, as `strftime("%m")` formats months. -/
def pad2 (n : Nat) : String := if n < 10 then "0" ++ toString n else toString n

/-- Zero-padding to four digits, as `strftime("%Y")` formats years. -/
def pad4 (n : Nat) : String :=
  if n < 10 then "000" ++ toString n
  else if n < 100 then "00" ++ toString n
  else if n < 1000 then "0" ++ toString n
  else toString n

/-- `strftime("%Y-%m")` on a month code (`12 * year + month - 1`); the
sources only format common-era dates, so negative codes clamp at zero. -/
def fmtMonth (code : Int) : String :=
  let m := code.toNat
  pad4 (m / 12) ++ "-" ++ pad2 (m % 12 + 1)

/-- `Series.idxmax()` on a column read bottom-up: the positional index
and cell of the first occurrence of the maximum (pandas keeps the
earliest position on ties). `none` on an empty column, where pandas
raises. -/
def idxmax : List Val → Option (Nat × Val)
  | [] => none
  | v :: vs =>
      match idxmax vs with
      | none => some (0, v)
      | some (j, m) => if Val.leB m v then some (0, v) else some (j + 1, m)

/-- `Series.idxmin()`: positional index and cell of the first occurrence
of the minimum. -/
def idxmin : List Val → Option (Nat × Val)
  | [] => none
  | v :: vs =>
      match idxmin vs with
      | none => some (0, v)
      | some (j, m) => if Val.leB v m then some (0, v) else some (j + 1, m)

/-- Embedding of `plot.insight_monthly_trend`: `d = df.copy()`;
`d[date_col] = pd.to_datetime(d[date_col])`; `peak`/`low` are the rows
at `d[value_col].idxmax()`/`.idxmin()` (positional, via the default
`RangeIndex`); the start/end figures come from `d.iloc[0]`/`d.iloc[-1]`
— the frame is never re-sorted; `direction` is `"upward"` iff the last
value is at least the first.  The `"%Y-%m"` month strings are produced
by `fmtMonth` (the date cells are already coerced, so the total
`Val.dateCodeD` reads their codes). -/
def insight_monthly_trend (h : Heap) (df : Ref) (date_col value_col : String) :
    Except PlotError Insight × Heap :=
  let p := h.alloc (h.read df)
  match (p.1.read p.2).col? date_col with
  | .error e => (.error e, p.1)
  | .ok dv =>
      match mapExcept Val.toDatetime dv with
      | .error e => (.error e, p.1)
      | .ok dv2 =>
          let h2 := p.1.write p.2 ((p.1.read p.2).setCol date_col dv2)
          match (h2.read p.2).col? value_col with
          | .error e => (.error e, h2)
          | .ok vals =>
              match idxmax vals, idxmin vals with
              | some pk, some lo =>
                  let startVal := vals.getD 0 (.i 0)
                  let endVal := vals.getLastD (.i 0)
                  (.ok { direction := if Val.leB startVal endVal then "upward" else "downward",
                         startMonth := fmtMonth (dv2.getD 0 (.i 0)).dateCodeD,
                         startVal := startVal,
                         endMonth := fmtMonth (dv2.getLastD (.i 0)).dateCodeD,
                         endVal := endVal,
                         peakMonth := fmtMonth (dv2.getD pk.1 (.i 0)).dateCodeD,
                         peakVal := vals.getD pk.1 (.i 0),
                         lowMonth := fmtMonth (dv2.getD lo.1 (.i 0)).dateCodeD,
                         lowVal := vals.getD lo.1 (.i 0) }, h2)
              | _, _ =>
                  (.error (.valueError "attempt to get argmax of an empty sequence"), h2)

/-! ### `src/db.py` -/

/-- A process environment, as `os.getenv` sees it after `load_dotenv()`
has merged any local `.env` file. -/
abbrev Env := String → Option String

/-- `os.getenv(k, default)`. -/
def getenv (env : Env) (k dflt : String) : String := (env k).getD dflt

/-- The ODBC connection string `make_engine` assembles: driver name,
server and database from the environment (with the documented
defaults), integrated authentication, and certificate trust. -/
def odbc_str (env : Env) : String :=
  let server := getenv env "SQL_SERVER" "localhost\\SQL2025"
  let database := getenv env "SQL_DATABASE" "AdventureWorks2025"
  "DRIVER=\x7bODBC Driver 18 for SQL Server\x7d;"
    ++ ("SERVER=" ++ server ++ ";")
    ++ ("DATABASE=" ++ database ++ ";")
    ++ "Trusted_Connection=yes;"
    ++ "TrustServerCertificate=yes;"

/-- Hexadecimal digit, uppercase, as `urllib.parse.quote_plus` emits. -/
def hexDigit (n : Nat) : Char :=
  if n < 10 then Char.ofNat (48 + n) else Char.ofNat (55 + n)

/-- Characters `quote_plus` passes through unescaped. -/
def quoteSafe (c : Char) : Bool :=
  c.isAlphanum || c = '_' || c = '.' || c = '-' || c = '~'

/-- `urllib.parse.quote_plus` restricted to the ASCII connection strings
the module builds: spaces become `+`, unsafe characters become `%XX`. -/
def quote_plus (s : String) : String :=
  String.mk ((s.data.map (fun c =>
    if c = ' ' then ['+']
    else if quoteSafe c then [c]
    else ['%', hexDigit (c.toNat / 16), hexDigit (c.toNat % 16)])).flatten)

/-- Embedding of `db.make_engine`: the SQLAlchemy connection URL is the
`mssql+pyodbc` prefix plus the quoted ODBC string (engine construction
itself is the SQL driver's job and carries no further repository
logic). -/
def make_engine (env : Env) : String :=
  "mssql+pyodbc:///?odbc_connect=" ++ quote_plus (odbc_str env)

/-- The backing database the engine talks to: named tables. -/
abbrev DBState := List (String × DataFrame)

/-- Modelled from the spec: the external SQL engine behind
`pd.read_sql` is not part of `src/`; per spec §4.1 and §8 it evaluates a
read-only query against the backing tables into a result table and does
not modify them.  The query language itself is unspecified, so a query
string is interpreted as naming its backing table; the optional `params`
are threaded but, as in the claim, not needed.  The call returns the
result table and the database state after the call. -/
def runQuery (db : DBState) (query : String)
    (_params : Option (List (String × Val))) : DataFrame × DBState :=
  (((db.find? (fun t => t.1 = query)).map (fun t => t.2)).getD ⟨[], []⟩, db)

/-- Embedding of `db.read_sql`: delegates to `pd.read_sql` against the
shared engine, returning the full result set. -/
def read_sql (db : DBState) (query : String)
    (params : Option (List (String × Val))) : DataFrame × DBState :=
  runQuery db query params

/-! ### Single-frame entry points

A notebook call hands one frame to a helper; these wrappers run the
helper on the singleton heap holding that frame and return what the
call draws (or raises).  All functional claims are stated on them; the
heap forms are used directly for the mutation claims. -/

/-- Chart (or error) of a `bar_vertical` call on one frame. -/
def barVertical (df : DataFrame) (x y title : String) (xlabel ylabel : Option String)
    (sort_by : Option String) (ascending : Bool) : Except PlotError BarChart :=
  (bar_vertical [df] 0 x y title xlabel ylabel sort_by ascending).1

/-- Chart (or error) of a `bar_horizontal` call on one frame. -/
def barHorizontal (df : DataFrame) (x y title : String) (xlabel ylabel : Option String)
    (sort_desc : Bool) : Except PlotError HBarChart :=
  (bar_horizontal [df] 0 x y title xlabel ylabel sort_desc).1

/-- Chart (or error) of a `line_plot_monthly` call on one frame. -/
def linePlotMonthly (df : DataFrame) (date_col value_col title xlabel ylabel : String)
    (month_interval : Int) : Except PlotError LineChart :=
  (line_plot_monthly [df] 0 date_col value_col title xlabel ylabel month_interval).1

/-- Chart (or error) of a `grouped_bar_wide` call on one frame. -/
def groupedBarWide (df : DataFrame) (x : String) (y_cols : List String) (title : String)
    (xlabel : Option String) (ylabel legend_title : String)
    (y_col_labels : Option (List String)) : Except PlotError GroupedBarChart :=
  (grouped_bar_wide [df] 0 x y_cols title xlabel ylabel legend_title y_col_labels).1

/-- Chart (or error) of a `scatter_plot` call on one frame. -/
def scatterPlot (df : DataFrame) (x y title : String) (xlabel ylabel : Option String) :
    Except PlotError ScatterChart :=
  (scatter_plot [df] 0 x y title xlabel ylabel).1

/-- Summary (or error) of an `insight_monthly_trend` call on one frame. -/
def insightMonthlyTrend (df : DataFrame) (date_col value_col : String) :
    Except PlotError Insight :=
  (insight_monthly_trend [df] 0 date_col value_col).1

/-- Did a call raise a lookup (`KeyError`) failure? -/
def isKeyError : Except PlotError α → Bool
  | .error (.keyError _) => true
  | _ => false

/-- Did a call raise a validation (`ValueError`) failure? -/
def isValueError : Except PlotError α → Bool
  | .error (.valueError _) => true
  | _ => false

/-- Containment of `t` in `s` as a contiguous substring. -/
def strContains (s t : String) : Prop := ∃ p q, s = p ++ t ++ q

/-- An environment that sets only `SQL_DATABASE=TestDB`. -/
def envTest : Env := fun k => if k = "SQL_DATABASE" then some "TestDB" else none

/-- An environment with neither variable set. -/
def envEmpty : Env := fun _ => none

/-! ### Concrete example frames used in the closed theorems -/

/-- Four consecutive months (2024-01 .. 2024-04) with totals
100, 150, 90, 200, in chronological row order. -/
def trendFrame : DataFrame :=
  ⟨["MonthStart", "TotalSales"],
   [[.d 24288, .i 100], [.d 24289, .i 150], [.d 24290, .i 90], [.d 24291, .i 200]]⟩

/-- The same four months with the rows out of chronological order
(2024-03, 2024-01, 2024-04, 2024-02). -/
def shuffledTrendFrame : DataFrame :=
  ⟨["MonthStart", "TotalSales"],
   [[.d 24290, .i 90], [.d 24288, .i 100], [.d 24291, .i 200], [.d 24289, .i 150]]⟩

/-- Two categories with an equal value, in the order A then B. -/
def tieFrame : DataFrame :=
  ⟨["x", "y"], [[.i 5, .s "A"], [.i 5, .s "B"]]⟩

/-- A frame without the `cat` column requested below. -/
def noCatFrame : DataFrame :=
  ⟨["a", "b"], [[.i 1, .i 2]]⟩

/-- A frame whose date column holds unparseable text. -/
def badDateFrame : DataFrame :=
  ⟨["m"], [[.s "##"]]⟩

/-- A one-category frame lacking the value column requested below. -/
def oneCatFrame : DataFrame :=
  ⟨["cat"], [[.s "A"]]⟩

/-- Three categories with unsorted values, for the sorting claims. -/
def threeRowFrame : DataFrame :=
  ⟨["cat", "val"], [[.s "a", .i 3], [.s "b", .i 1], [.s "c", .i 2]]⟩

/-! ### Order lemmas for the cell comparator -/

theorem lexLe_refl : ∀ l, lexLe l l = true
  | [] => rfl
  | _ :: as => by simp [lexLe, lexLe_refl as]

theorem lexLe_trans : ∀ {a b c}, lexLe a b = true → lexLe b c = true → lexLe a c = true
  | [], _, _, _, _ => rfl
  | _ :: _, [], _, h, _ => by simp [lexLe] at h
  | _ :: _, _ :: _, [], _, h => by simp [lexLe] at h
  | x :: xs, y :: ys, z :: zs, h1, h2 => by
      simp only [lexLe] at h1 h2 ⊢
      rcases Nat.lt_trichotomy x.toNat y.toNat with hxy | hxy | hxy
      · rcases Nat.lt_trichotomy y.toNat z.toNat with hyz | hyz | hyz
        · simp [show x.toNat < z.toNat by omega]
        · simp [show x.toNat < z.toNat by omega]
        · rw [if_neg (by omega), if_pos hyz] at h2
          simp at h2
      · rw [if_neg (by omega), if_neg (by omega)] at h1
        rcases Nat.lt_trichotomy y.toNat z.toNat with hyz | hyz | hyz
        · simp [show x.toNat < z.toNat by omega]
        · rw [if_neg (by omega), if_neg (by omega)] at h2
          rw [if_neg (by omega), if_neg (by omega)]
          exact lexLe_trans h1 h2
        · rw [if_neg (by omega), if_pos hyz] at h2
          simp at h2
      · rw [if_neg (by omega), if_pos hxy] at h1
        simp at h1

theorem lexLe_total : ∀ a b, lexLe a b = true ∨ lexLe b a = true
  | [], _ => .inl rfl
  | _ :: _, [] => .inr rfl
  | x :: xs, y :: ys => by
      simp only [lexLe]
      rcases Nat.lt_trichotomy x.toNat y.toNat with h | h | h
      · left; simp [h]
      · have h1 : ¬ x.toNat < y.toNat := by omega
        have h2 : ¬ y.toNat < x.toNat := by omega
        simpa [h1, h2] using lexLe_total xs ys
      · right; simp [h]

theorem Val.leB_refl : ∀ v : Val, Val.leB v v = true := by
  intro v
  cases v <;> simp [Val.leB, lexLe_refl]

theorem Val.leB_trans : ∀ {a b c : Val}, Val.leB a b = true → Val.leB b c = true →
    Val.leB a c = true := by
  intro a b c h1 h2
  cases a <;> cases b <;> cases c <;>
    simp only [Val.leB, Val.tag, decide_eq_true_eq] at h1 h2 ⊢ <;> try omega
  exact lexLe_trans h1 h2

theorem Val.leB_total : ∀ a b : Val, Val.leB a b = true ∨ Val.leB b a = true := by
  intro a b
  cases a <;> cases b <;>
    simp only [Val.leB, Val.tag, decide_eq_true_eq] <;> try omega
  exact lexLe_total _ _

theorem rowLe_trans (i : Nat) : ∀ (a b c : List Val), rowLe i a b → rowLe i b c → rowLe i a c :=
  fun _ _ _ h1 h2 => Val.leB_trans h1 h2

theorem rowLe_total (i : Nat) : ∀ (a b : List Val), rowLe i a b || rowLe i b a :=
  fun a b => by
    rcases Val.leB_total (cell a i) (cell b i) with h | h <;> simp [rowLe, h]

/-! ### Column lookup lemmas -/

theorem colIdx?_eq_none_iff {df : DataFrame} {c : String} :
    df.colIdx? c = none ↔ c ∉ df.cols := by
  simp only [DataFrame.colIdx?, List.findIdx?_eq_none_iff, decide_eq_true_eq]
  constructor
  · intro h hc
    have := h c hc
    simp at this
  · intro h a ha
    simp only [decide_eq_false_iff_not]
    intro hac
    exact h (hac ▸ ha)

theorem colIdx?_some_of_mem {df : DataFrame} {c : String} (h : c ∈ df.cols) :
    ∃ i, df.colIdx? c = some i := by
  cases hc : df.colIdx? c with
  | none => exact absurd (colIdx?_eq_none_iff.mp hc) (by simp [h])
  | some i => exact ⟨i, rfl⟩

theorem col?_error_of_not_mem {df : DataFrame} {c : String} (h : c ∉ df.cols) :
    df.col? c = .error (.keyError c) := by
  simp [DataFrame.col?, colIdx?_eq_none_iff.mpr h]

theorem col?_error_eq {df : DataFrame} {c : String} {e : PlotError}
    (h : df.col? c = .error e) : e = .keyError c := by
  unfold DataFrame.col? at h
  cases hc : df.colIdx? c <;> rw [hc] at h <;> simp_all

theorem col?_ok_iff {df : DataFrame} {c : String} {vs : List Val} :
    df.col? c = .ok vs ↔ ∃ i, df.colIdx? c = some i ∧ vs = df.rows.map (fun r => cell r i) := by
  unfold DataFrame.col?
  cases hc : df.colIdx? c <;> simp [eq_comm]

theorem col?_mem_of_ok {df : DataFrame} {c : String} {vs : List Val}
    (h : df.col? c = .ok vs) : c ∈ df.cols := by
  by_contra hc
  rw [col?_error_of_not_mem hc] at h
  exact absurd h (by simp)

/-! ### `sort_values` lemmas -/

theorem sortValues_error_eq {df : DataFrame} {c : String} {asc : Bool} {e : PlotError}
    (h : df.sortValues c asc = .error e) : e = .keyError c := by
  unfold DataFrame.sortValues at h
  cases hc : df.colIdx? c <;> rw [hc] at h <;> simp_all

theorem sortValues_error_of_not_mem {df : DataFrame} {c : String} {asc : Bool}
    (h : c ∉ df.cols) : df.sortValues c asc = .error (.keyError c) := by
  simp [DataFrame.sortValues, colIdx?_eq_none_iff.mpr h]

theorem sortValues_ok_iff {df d' : DataFrame} {c : String} {asc : Bool} :
    df.sortValues c asc = .ok d' ↔
      ∃ i, df.colIdx? c = some i ∧
        d' = ⟨df.cols, if asc then df.rows.insertionSort (rowRel i)
                       else (df.rows.insertionSort (rowRel i)).reverse⟩ := by
  unfold DataFrame.sortValues
  cases hc : df.colIdx? c <;> simp [eq_comm]

theorem sortValues_ok_cols {df d' : DataFrame} {c : String} {asc : Bool}
    (h : df.sortValues c asc = .ok d') : d'.cols = df.cols := by
  obtain ⟨i, -, rfl⟩ := sortValues_ok_iff.mp h
  rfl

theorem sortValues_ok_perm {df d' : DataFrame} {c : String} {asc : Bool}
    (h : df.sortValues c asc = .ok d') : List.Perm d'.rows df.rows := by
  obtain ⟨i, -, rfl⟩ := sortValues_ok_iff.mp h
  cases asc <;> simp only [Bool.false_eq_true, if_false, if_true]
  · exact (List.reverse_perm _).trans (List.perm_insertionSort _ _)
  · exact List.perm_insertionSort _ _

theorem insertionSort_rowRel_sorted (i : Nat) (rs : List (List Val)) :
    (rs.insertionSort (rowRel i)).Pairwise (rowRel i) := by
  haveI : IsTotal (List Val) (rowRel i) :=
    ⟨fun a b => by
      have := rowLe_total i a b
      rcases Bool.or_eq_true_iff.mp this with h | h
      · exact .inl h
      · exact .inr h⟩
  haveI : IsTrans (List Val) (rowRel i) := ⟨fun a b c => rowLe_trans i a b c⟩
  exact List.sorted_insertionSort (rowRel i) rs

theorem sortValues_ok_sorted_asc {df d' : DataFrame} {c : String} {i : Nat}
    (h : df.sortValues c true = .ok d') (hi : df.colIdx? c = some i) :
    d'.rows.Pairwise (fun r s => rowLe i r s = true) := by
  obtain ⟨j, hj, rfl⟩ := sortValues_ok_iff.mp h
  rw [hi] at hj
  cases hj
  simpa using insertionSort_rowRel_sorted i df.rows

theorem sortValues_ok_sorted_desc {df d' : DataFrame} {c : String} {i : Nat}
    (h : df.sortValues c false = .ok d') (hi : df.colIdx? c = some i) :
    d'.rows.Pairwise (fun r s => rowLe i s r = true) := by
  obtain ⟨j, hj, rfl⟩ := sortValues_ok_iff.mp h
  rw [hi] at hj
  cases hj
  simp only [Bool.false_eq_true, if_false]
  rw [List.pairwise_reverse]
  simpa using insertionSort_rowRel_sorted i df.rows

/-! ### `mapExcept` lemmas -/

theorem mapExcept_ok_length {f : α → Except PlotError β} :
    ∀ {l : List α} {l' : List β}, mapExcept f l = .ok l' → l'.length = l.length
  | [], l', h => by
      simp only [mapExcept, Except.ok.injEq] at h
      subst h
      rfl
  | a :: l, l', h => by
      simp only [mapExcept] at h
      cases hf : f a with
      | error e => rw [hf] at h; exact absurd h (by simp)
      | ok b =>
          rw [hf] at h
          cases hm : mapExcept f l with
          | error e => rw [hm] at h; exact absurd h (by simp)
          | ok bs =>
              rw [hm] at h
              simp only [Except.ok.injEq] at h
              subst h
              simp [mapExcept_ok_length hm]

theorem mapExcept_error_isKeyError {f : α → Except PlotError β}
    (hf : ∀ a e, f a = .error e → ∃ c, e = .keyError c) :
    ∀ {l : List α}, (∃ a ∈ l, ∃ e, f a = .error e) →
      ∃ c, mapExcept f l = .error (.keyError c)
  | [], h => by simp at h
  | a :: l, h => by
      simp only [mapExcept]
      cases hfa : f a with
      | error e =>
          obtain ⟨c, rfl⟩ := hf a e hfa
          exact ⟨c, rfl⟩
      | ok b =>
          obtain ⟨a', ha', e', he'⟩ := h
          rcases List.mem_cons.mp ha' with rfl | ha'
          · rw [hfa] at he'; exact absurd he' (by simp)
          · obtain ⟨c, hc⟩ := mapExcept_error_isKeyError hf ⟨a', ha', e', he'⟩
            rw [hc]
            exact ⟨c, rfl⟩

/-! ### Heap lemmas -/

theorem Heap.read_alloc_self (h : Heap) (df : DataFrame) :
    (h.alloc df).1.read (h.alloc df).2 = df := by
  simp [Heap.alloc, Heap.read, List.getD, List.getElem?_append_right (Nat.le_refl _)]

theorem Heap.read_alloc_lt {h : Heap} {r : Ref} (df : DataFrame) (hr : r < h.length) :
    (h.alloc df).1.read r = h.read r := by
  simp [Heap.alloc, Heap.read, List.getD, List.getElem?_append_left hr]

theorem Heap.read_write_ne {h : Heap} {r w : Ref} (df : DataFrame) (hne : r ≠ w) :
    (h.write w df).read r = h.read r := by
  simp [Heap.write, Heap.read, List.getD, List.getElem?_set_ne (Ne.symm hne)]

theorem Heap.length_alloc (h : Heap) (df : DataFrame) :
    (h.alloc df).1.length = h.length + 1 := by
  simp [Heap.alloc]

theorem Heap.length_write (h : Heap) (w : Ref) (df : DataFrame) :
    (h.write w df).length = h.length := by
  simp [Heap.write]

theorem Heap.alloc_ref (h : Heap) (df : DataFrame) : (h.alloc df).2 = h.length := rfl

/-! ### `idxmax` / `idxmin` lemmas -/

theorem idxmax_isSome {l : List Val} (h : l ≠ []) : ∃ jm, idxmax l = some jm := by
  cases l with
  | nil => exact absurd rfl h
  | cons v vs =>
      simp only [idxmax]
      cases idxmax vs with
      | none => exact ⟨_, rfl⟩
      | some jm => dsimp only; split <;> exact ⟨_, rfl⟩

theorem idxmax_spec : ∀ {l : List Val} {j : Nat} {m : Val}, idxmax l = some (j, m) →
    l.getD j (.i 0) = m ∧ ∀ v ∈ l, Val.leB v m = true
  | [], _, _, h => by simp [idxmax] at h
  | v :: vs, j, m, h => by
      simp only [idxmax] at h
      cases hm : idxmax vs with
      | none =>
          rw [hm] at h
          simp only [Option.some.injEq, Prod.mk.injEq] at h
          obtain ⟨rfl, rfl⟩ := h
          have hvs : vs = [] := by
            cases vs with
            | nil => rfl
            | cons w ws =>
                obtain ⟨jm, hjm⟩ := idxmax_isSome (l := w :: ws) (by simp)
                rw [hjm] at hm
                exact absurd hm (by simp)
          subst hvs
          exact ⟨rfl, by simp [Val.leB_refl]⟩
      | some jm =>
          obtain ⟨j', m'⟩ := jm
          rw [hm] at h
          obtain ⟨hget, hall⟩ := idxmax_spec (l := vs) hm
          dsimp only at h
          by_cases hle : Val.leB m' v = true
          · rw [if_pos hle] at h
            simp only [Option.some.injEq, Prod.mk.injEq] at h
            obtain ⟨rfl, rfl⟩ := h
            refine ⟨rfl, fun x hx => ?_⟩
            rcases List.mem_cons.mp hx with rfl | hx
            · exact Val.leB_refl _
            · exact Val.leB_trans (hall x hx) hle
          · rw [if_neg hle] at h
            simp only [Option.some.injEq, Prod.mk.injEq] at h
            obtain ⟨rfl, rfl⟩ := h
            refine ⟨hget, fun x hx => ?_⟩
            rcases List.mem_cons.mp hx with rfl | hx
            · exact (Val.leB_total x m').resolve_right hle
            · exact hall x hx

theorem idxmin_isSome {l : List Val} (h : l ≠ []) : ∃ jm, idxmin l = some jm := by
  cases l with
  | nil => exact absurd rfl h
  | cons v vs =>
      simp only [idxmin]
      cases idxmin vs with
      | none => exact ⟨_, rfl⟩
      | some jm => dsimp only; split <;> exact ⟨_, rfl⟩

theorem idxmin_spec : ∀ {l : List Val} {j : Nat} {m : Val}, idxmin l = some (j, m) →
    l.getD j (.i 0) = m ∧ ∀ v ∈ l, Val.leB m v = true
  | [], _, _, h => by simp [idxmin] at h
  | v :: vs, j, m, h => by
      simp only [idxmin] at h
      cases hm : idxmin vs with
      | none =>
          rw [hm] at h
          simp only [Option.some.injEq, Prod.mk.injEq] at h
          obtain ⟨rfl, rfl⟩ := h
          have hvs : vs = [] := by
            cases vs with
            | nil => rfl
            | cons w ws =>
                obtain ⟨jm, hjm⟩ := idxmin_isSome (l := w :: ws) (by simp)
                rw [hjm] at hm
                exact absurd hm (by simp)
          subst hvs
          exact ⟨rfl, by simp [Val.leB_refl]⟩
      | some jm =>
          obtain ⟨j', m'⟩ := jm
          rw [hm] at h
          obtain ⟨hget, hall⟩ := idxmin_spec (l := vs) hm
          dsimp only at h
          by_cases hle : Val.leB v m' = true
          · rw [if_pos hle] at h
            simp only [Option.some.injEq, Prod.mk.injEq] at h
            obtain ⟨rfl, rfl⟩ := h
            refine ⟨rfl, fun x hx => ?_⟩
            rcases List.mem_cons.mp hx with rfl | hx
            · exact Val.leB_refl _
            · exact Val.leB_trans hle (hall x hx)
          · rw [if_neg hle] at h
            simp only [Option.some.injEq, Prod.mk.injEq] at h
            obtain ⟨rfl, rfl⟩ := h
            refine ⟨hget, fun x hx => ?_⟩
            rcases List.mem_cons.mp hx with rfl | hx
            · exact (Val.leB_total m' x).resolve_right hle
            · exact hall x hx

/-! ### Claim theorems -/

/-- C2: on a table holding four consecutive months (2024-01 .. 2024-04)
with values 100, 150, 90, 200 in that row order,
`insight_monthly_trend` reports the trend direction "upward" (the last
value 200 is ≥ the first value 100), identifies the 4th month (2024-04,
value 200) as the highest month and the 3rd month (2024-03, value 90)
as the lowest month. -/
theorem c2_insight_trend_values :
    insightMonthlyTrend trendFrame "MonthStart" "TotalSales" =
      .ok { direction := "upward",
            startMonth := "2024-01", startVal := .i 100,
            endMonth := "2024-04", endVal := .i 200,
            peakMonth := "2024-04", peakVal := .i 200,
            lowMonth := "2024-03", lowVal := .i 90 } := by decide

/-- C9: for a fixed query string and no parameters, two successive
`read_sql` calls against the same backing database return identical
result tables, and the read-only evaluation leaves the backing tables
unchanged in between. -/
theorem c9_read_sql_deterministic (db : DBState) (q : String) :
    (read_sql db q none).1 = (read_sql (read_sql db q none).2 q none).1 ∧
      (read_sql (read_sql db q none).2 q none).2 = db :=
  ⟨rfl, rfl⟩

/-- C6: `make_engine`'s ODBC string contains `DATABASE=TestDB` whenever
the environment sets `SQL_DATABASE=TestDB`; it falls back to the
defaults `localhost\SQL2025` and `AdventureWorks2025` when the
variables are unset; and for every environment it requests integrated
authentication (`Trusted_Connection=yes`) and a trusted server
certificate (`TrustServerCertificate=yes`). -/
theorem c6_connection_string :
    (∀ env : Env, env "SQL_DATABASE" = some "TestDB" →
        strContains (odbc_str env) "DATABASE=TestDB") ∧
    (∀ env : Env, env "SQL_SERVER" = none → env "SQL_DATABASE" = none →
        strContains (odbc_str env) "SERVER=localhost\\SQL2025;" ∧
        strContains (odbc_str env) "DATABASE=AdventureWorks2025;") ∧
    (∀ env : Env, strContains (odbc_str env) "Trusted_Connection=yes;" ∧
        strContains (odbc_str env) "TrustServerCertificate=yes;") := by
  refine ⟨?_, ?_, ?_⟩
  · intro env h
    refine ⟨"DRIVER=\x7bODBC Driver 18 for SQL Server\x7d;"
        ++ ("SERVER=" ++ getenv env "SQL_SERVER" "localhost\\SQL2025" ++ ";"),
      ";" ++ ("Trusted_Connection=yes;" ++ "TrustServerCertificate=yes;"), ?_⟩
    have hdb : getenv env "SQL_DATABASE" "AdventureWorks2025" = "TestDB" := by
      simp [getenv, h]
    simp only [odbc_str, hdb]
    rw [show ("DATABASE=" : String) ++ "TestDB" = "DATABASE=TestDB" from rfl]
    simp [String.append_assoc]
  · intro env h1 h2
    have hs : getenv env "SQL_SERVER" "localhost\\SQL2025" = "localhost\\SQL2025" := by
      simp [getenv, h1]
    have hd : getenv env "SQL_DATABASE" "AdventureWorks2025" = "AdventureWorks2025" := by
      simp [getenv, h2]
    constructor
    · refine ⟨"DRIVER=\x7bODBC Driver 18 for SQL Server\x7d;",
        "DATABASE=AdventureWorks2025;" ++ ("Trusted_Connection=yes;"
          ++ "TrustServerCertificate=yes;"), ?_⟩
      simp only [odbc_str, hs, hd]
      rw [show ("SERVER=" : String) ++ "localhost\\SQL2025" ++ ";"
            = "SERVER=localhost\\SQL2025;" from rfl,
          show ("DATABASE=" : String) ++ "AdventureWorks2025" ++ ";"
            = "DATABASE=AdventureWorks2025;" from rfl]
      simp [String.append_assoc]
    · refine ⟨"DRIVER=\x7bODBC Driver 18 for SQL Server\x7d;"
          ++ ("SERVER=localhost\\SQL2025;"),
        "Trusted_Connection=yes;" ++ "TrustServerCertificate=yes;", ?_⟩
      simp only [odbc_str, hs, hd]
      rw [show ("SERVER=" : String) ++ "localhost\\SQL2025" ++ ";"
            = "SERVER=localhost\\SQL2025;" from rfl,
          show ("DATABASE=" : String) ++ "AdventureWorks2025" ++ ";"
            = "DATABASE=AdventureWorks2025;" from rfl]
      simp [String.append_assoc]
  · intro env
    constructor
    · refine ⟨"DRIVER=\x7bODBC Driver 18 for SQL Server\x7d;"
          ++ ("SERVER=" ++ getenv env "SQL_SERVER" "localhost\\SQL2025" ++ ";")
          ++ ("DATABASE=" ++ getenv env "SQL_DATABASE" "AdventureWorks2025" ++ ";"),
        "TrustServerCertificate=yes;", ?_⟩
      simp [odbc_str, String.append_assoc]
    · refine ⟨"DRIVER=\x7bODBC Driver 18 for SQL Server\x7d;"
          ++ ("SERVER=" ++ getenv env "SQL_SERVER" "localhost\\SQL2025" ++ ";")
          ++ ("DATABASE=" ++ getenv env "SQL_DATABASE" "AdventureWorks2025" ++ ";")
          ++ "Trusted_Connection=yes;", "", ?_⟩
      simp [odbc_str, String.append_assoc]

/-- C6 witness: the three parts of `c6_connection_string` applied to the
concrete environments `envTest` and `envEmpty`. -/
theorem c6_connection_string_witness :
    strContains (odbc_str envTest) "DATABASE=TestDB" ∧
    strContains (odbc_str envEmpty) "SERVER=localhost\\SQL2025;" ∧
    strContains (odbc_str envEmpty) "Trusted_Connection=yes;" :=
  ⟨c6_connection_string.1 envTest rfl,
   (c6_connection_string.2.1 envEmpty rfl rfl).1,
   (c6_connection_string.2.2 envEmpty).1⟩

/-- C1 counterexample: for a frame that lacks the category column
`"cat"`, `grouped_bar_wide` raises `KeyError("cat")` — not the claimed
`ValueError` — even though the given `y_col_labels` length (1) differs
from the `y_cols` length (2): the source reads `d[x]` before it checks
the label count. -/
theorem c1_missing_x_keyerror_counterexample :
    groupedBarWide noCatFrame "cat" ["a", "b"] "t" none "" "" (some ["only"]) =
        .error (.keyError "cat") ∧
      isValueError
        (groupedBarWide noCatFrame "cat" ["a", "b"] "t" none "" "" (some ["only"])) = false ∧
      (["only"] : List String).length ≠ (["a", "b"] : List String).length :=
  ⟨by decide, by decide, by decide⟩

/-- C1 (amended): for every frame that does contain the category
column, every `y_cols` and every `y_col_labels` of differing length,
`grouped_bar_wide` raises the descriptive `ValueError` and produces no
chart (in the source the `raise` precedes `plt.figure`, so no figure is
created and no bar is drawn). -/
theorem c1_label_mismatch_valueerror (df : DataFrame) (x t yl lt : String)
    (xl : Option String) (y_cols ls : List String)
    (hx : x ∈ df.cols) (hlen : ls.length ≠ y_cols.length) :
    groupedBarWide df x y_cols t xl yl lt (some ls) =
      .error (.valueError "y_col_labels must have the same length as y_cols") := by
  obtain ⟨i, hi⟩ := colIdx?_some_of_mem hx
  simp only [groupedBarWide, grouped_bar_wide, Heap.read_alloc_self]
  rw [show (Heap.read [df] 0) = df from rfl]
  simp [DataFrame.col?, hi, hlen]

/-- C1 witness: `c1_label_mismatch_valueerror` applied to a concrete
one-column frame with two value columns and one legend label. -/
theorem c1_label_mismatch_valueerror_witness :
    groupedBarWide oneCatFrame "cat" ["v1", "v2"] "t" none "" "" (some ["L"]) =
      .error (.valueError "y_col_labels must have the same length as y_cols") :=
  c1_label_mismatch_valueerror oneCatFrame "cat" "t" "" "" none ["v1", "v2"] ["L"]
    (by decide) (by decide)

theorem colIdx?_congr {d1 d2 : DataFrame} (h : d1.cols = d2.cols) (c : String) :
    d1.colIdx? c = d2.colIdx? c := by
  unfold DataFrame.colIdx?
  rw [h]


/-! ### Single-frame normal forms

On the singleton heap the helpers reduce to pure pipelines over the
frame; the lemmas below state those normal forms once so that the claim
proofs need not reason about the heap again. -/

theorem barVertical_run (df : DataFrame) (x y t : String) (xl yl : Option String)
    (sb : Option String) (asc : Bool) :
    barVertical df x y t xl yl sb asc =
      (match (match sb with
              | none => Except.ok df
              | some sc => if sc = "" then Except.ok df else df.sortValues sc asc) with
       | .error e => .error e
       | .ok d2 =>
          match d2.col? x with
          | .error e => .error e
          | .ok xs =>
              match d2.col? y with
              | .error e => .error e
              | .ok ys =>
                  .ok { bars := (xs.map Val.toStr).zip ys, title := t,
                        xlabel := xl.getD x, ylabel := yl.getD y }) := by
  have hrd : (Heap.read [df] 0) = df := rfl
  cases sb with
  | none =>
      simp only [barVertical, bar_vertical, Heap.read_alloc_self, hrd]
      cases hx : df.col? x with
      | error e => rfl
      | ok xs =>
          dsimp only
          cases hy : df.col? y with
          | error e => rfl
          | ok ys => rfl
  | some sc =>
      rcases eq_or_ne sc "" with rfl | hsc
      · simp only [barVertical, bar_vertical, Heap.read_alloc_self, hrd]
        simp only [if_true, Heap.read_alloc_self]
        cases hx : df.col? x with
        | error e => rfl
        | ok xs =>
            dsimp only
            cases hy : df.col? y with
            | error e => rfl
            | ok ys => rfl
      · simp only [barVertical, bar_vertical, Heap.read_alloc_self, hrd, if_neg hsc]
        cases hs : df.sortValues sc asc with
        | error e => rfl
        | ok d2 =>
            dsimp only
            rw [show ((Heap.alloc [df] df).1.alloc d2).1.read
                  ((Heap.alloc [df] df).1.alloc d2).2 = d2 from rfl]
            cases hx : d2.col? x with
            | error e => rfl
            | ok xs =>
                dsimp only
                cases hy : d2.col? y with
                | error e => rfl
                | ok ys => rfl

theorem barHorizontal_run (df : DataFrame) (x y t : String) (xl yl : Option String)
    (sd : Bool) :
    barHorizontal df x y t xl yl sd =
      (match df.sortValues x (!sd) with
       | .error e => .error e
       | .ok d2 =>
          match d2.col? y with
          | .error e => .error e
          | .ok ys =>
              match d2.col? x with
              | .error e => .error e
              | .ok xs =>
                  .ok { bars := (ys.map Val.toStr).zip xs, invertedY := true,
                        title := t, xlabel := xl.getD x, ylabel := yl.getD y }) := by
  have hrd : (Heap.read [df] 0) = df := rfl
  simp only [barHorizontal, bar_horizontal, Heap.read_alloc_self, hrd]
  cases hs : df.sortValues x (!sd) with
  | error e => rfl
  | ok d2 =>
      dsimp only
      cases hy : d2.col? y with
      | error e => rfl
      | ok ys =>
          dsimp only
          cases hx : d2.col? x with
          | error e => rfl
          | ok xs => rfl

theorem scatterPlot_run (df : DataFrame) (x y t : String) (xl yl : Option String) :
    scatterPlot df x y t xl yl =
      (match df.col? x with
       | .error e => .error e
       | .ok xs =>
          match df.col? y with
          | .error e => .error e
          | .ok ys =>
              .ok { points := xs.zip ys, title := t,
                    xlabel := xl.getD x, ylabel := yl.getD y }) := by
  have hrd : (Heap.read [df] 0) = df := rfl
  simp only [scatterPlot, scatter_plot, hrd]
  cases hx : df.col? x with
  | error e => rfl
  | ok xs =>
      dsimp only
      cases hy : df.col? y with
      | error e => rfl
      | ok ys => rfl

theorem groupedBarWide_run (df : DataFrame) (x : String) (y_cols : List String)
    (t : String) (xl : Option String) (yl lt : String) (ylabels : Option (List String)) :
    groupedBarWide df x y_cols t xl yl lt ylabels =
      (match df.col? x with
       | .error e => .error e
       | .ok xv =>
          if (match ylabels with | some ls => ls | none => y_cols).length ≠ y_cols.length then
            .error (.valueError "y_col_labels must have the same length as y_cols")
          else
            match mapExcept (fun cl => (df.col? cl.1).map (fun vs => (cl.2, vs)))
                (y_cols.zip (match ylabels with | some ls => ls | none => y_cols)) with
            | .error e => .error e
            | .ok series =>
                .ok { xticks := xv.map Val.toStr, series := series, title := t,
                      xlabel := xl.getD x, ylabel := yl, legendTitle := lt }) := by
  have hrd : (Heap.read [df] 0) = df := rfl
  simp only [groupedBarWide, grouped_bar_wide, Heap.read_alloc_self, hrd]
  cases hx : df.col? x with
  | error e => rfl
  | ok xv =>
      dsimp only
      split
      · rfl
      · cases hm : mapExcept (fun cl => (df.col? cl.1).map (fun vs => (cl.2, vs)))
            (y_cols.zip (match ylabels with | some ls => ls | none => y_cols)) with
        | error e => rfl
        | ok series => rfl

theorem linePlotMonthly_run (df : DataFrame) (dc vc t xl yl : String) (mi : Int) :
    linePlotMonthly df dc vc t xl yl mi =
      (match df.col? dc with
       | .error e => .error e
       | .ok dv =>
          match mapExcept Val.toDatetime dv with
          | .error e => .error e
          | .ok dv2 =>
              match (df.setCol dc dv2).sortValues dc true with
              | .error e => .error e
              | .ok d2 =>
                  match d2.col? dc with
                  | .error e => .error e
                  | .ok ds =>
                      match d2.col? vc with
                      | .error e => .error e
                      | .ok vs =>
                          .ok { points := ds.zip vs, title := t, xlabel := xl,
                                ylabel := yl, monthInterval := mi }) := by
  have hrd : (Heap.read [df] 0) = df := rfl
  simp only [linePlotMonthly, line_plot_monthly, Heap.read_alloc_self, hrd]
  cases hdv : df.col? dc with
  | error e => rfl
  | ok dv =>
      dsimp only
      cases hm : mapExcept Val.toDatetime dv with
      | error e => rfl
      | ok dv2 =>
          dsimp only
          generalize df.setCol dc dv2 = d1
          rw [show ((Heap.alloc [df] df).1.write (Heap.alloc [df] df).2 d1).read
                (Heap.alloc [df] df).2 = d1 from rfl]
          cases hs : d1.sortValues dc true with
          | error e => rfl
          | ok d2 =>
              dsimp only
              cases hds : d2.col? dc with
              | error e => rfl
              | ok ds =>
                  dsimp only
                  cases hvs : d2.col? vc with
                  | error e => rfl
                  | ok vs => rfl

theorem insightMonthlyTrend_run (df : DataFrame) (dc vc : String) :
    insightMonthlyTrend df dc vc =
      (match df.col? dc with
       | .error e => .error e
       | .ok dv =>
          match mapExcept Val.toDatetime dv with
          | .error e => .error e
          | .ok dv2 =>
              match (df.setCol dc dv2).col? vc with
              | .error e => .error e
              | .ok vals =>
                  match idxmax vals, idxmin vals with
                  | some pk, some lo =>
                      .ok { direction := if Val.leB (vals.getD 0 (.i 0)) (vals.getLastD (.i 0))
                                         then "upward" else "downward",
                            startMonth := fmtMonth (dv2.getD 0 (.i 0)).dateCodeD,
                            startVal := vals.getD 0 (.i 0),
                            endMonth := fmtMonth (dv2.getLastD (.i 0)).dateCodeD,
                            endVal := vals.getLastD (.i 0),
                            peakMonth := fmtMonth (dv2.getD pk.1 (.i 0)).dateCodeD,
                            peakVal := vals.getD pk.1 (.i 0),
                            lowMonth := fmtMonth (dv2.getD lo.1 (.i 0)).dateCodeD,
                            lowVal := vals.getD lo.1 (.i 0) }
                  | _, _ => .error (.valueError "attempt to get argmax of an empty sequence")) := by
  have hrd : (Heap.read [df] 0) = df := rfl
  simp only [insightMonthlyTrend, insight_monthly_trend, Heap.read_alloc_self, hrd]
  cases hdv : df.col? dc with
  | error e => rfl
  | ok dv =>
      dsimp only
      cases hm : mapExcept Val.toDatetime dv with
      | error e => rfl
      | ok dv2 =>
          dsimp only
          generalize df.setCol dc dv2 = d1
          rw [show ((Heap.alloc [df] df).1.write (Heap.alloc [df] df).2 d1).read
                (Heap.alloc [df] df).2 = d1 from rfl]
          cases hv : d1.col? vc with
          | error e => rfl
          | ok vals =>
              dsimp only
              cases hmx : idxmax vals with
              | none =>
                  cases hmn : idxmin vals with
                  | none => rfl
                  | some lo => rfl
              | some pk =>
                  cases hmn : idxmin vals with
                  | none => rfl
                  | some lo => rfl

/-! ### Missing-column behaviour -/

theorem colIdx?_mem_of_some {df : DataFrame} {c : String} {i : Nat}
    (h : df.colIdx? c = some i) : c ∈ df.cols := by
  by_contra hc
  rw [colIdx?_eq_none_iff.mpr hc] at h
  exact absurd h (by simp)

theorem setCol_cols_of_mem {df : DataFrame} {c : String} (vs : List Val)
    (h : c ∈ df.cols) : (df.setCol c vs).cols = df.cols := by
  obtain ⟨i, hi⟩ := colIdx?_some_of_mem h
  simp [DataFrame.setCol, hi]

theorem mem_zip_left {a : α} : ∀ {l1 : List α} {l2 : List β}, a ∈ l1 →
    l1.length ≤ l2.length → ∃ b, (a, b) ∈ l1.zip l2
  | [], _, h, _ => by simp at h
  | x :: l1, [], _, hlen => by simp at hlen
  | x :: l1, y :: l2, h, hlen => by
      rcases List.mem_cons.mp h with rfl | h
      · exact ⟨y, by simp⟩
      · obtain ⟨b, hb⟩ := mem_zip_left h (by simpa using hlen)
        exact ⟨b, by simp [hb]⟩

theorem barVertical_missing {df : DataFrame} {x y t : String} {xl yl : Option String}
    {sb : Option String} {asc : Bool} (hmiss : x ∉ df.cols ∨ y ∉ df.cols) :
    isKeyError (barVertical df x y t xl yl sb asc) = true := by
  rw [barVertical_run]
  have hstep : ∀ d2 : DataFrame, d2.cols = df.cols →
      isKeyError (match d2.col? x with
        | .error e => (.error e : Except PlotError BarChart)
        | .ok xs =>
            match d2.col? y with
            | .error e => .error e
            | .ok ys => .ok { bars := (xs.map Val.toStr).zip ys, title := t,
                              xlabel := xl.getD x, ylabel := yl.getD y }) = true := by
    intro d2 hc
    rcases hmiss with hm | hm
    · rw [col?_error_of_not_mem (by rw [hc]; exact hm)]
      rfl
    · cases hx : d2.col? x with
      | error e =>
          obtain rfl := col?_error_eq hx
          rfl
      | ok xs =>
          rw [col?_error_of_not_mem (by rw [hc]; exact hm)]
          rfl
  cases sb with
  | none => exact hstep df rfl
  | some sc =>
      rcases eq_or_ne sc "" with rfl | hsc
      · dsimp only
        rw [if_pos rfl]
        exact hstep df rfl
      · dsimp only
        rw [if_neg hsc]
        cases hs : df.sortValues sc asc with
        | error e =>
            obtain rfl := sortValues_error_eq hs
            rfl
        | ok d2 => exact hstep d2 (sortValues_ok_cols hs)

theorem barHorizontal_missing {df : DataFrame} {x y t : String} {xl yl : Option String}
    {sd : Bool} (hmiss : x ∉ df.cols ∨ y ∉ df.cols) :
    isKeyError (barHorizontal df x y t xl yl sd) = true := by
  rw [barHorizontal_run]
  cases hs : df.sortValues x (!sd) with
  | error e =>
      obtain rfl := sortValues_error_eq hs
      rfl
  | ok d2 =>
      dsimp only
      have hc : d2.cols = df.cols := sortValues_ok_cols hs
      have hxmem : x ∈ df.cols := by
        obtain ⟨i, hi, -⟩ := sortValues_ok_iff.mp hs
        exact colIdx?_mem_of_some hi
      have hm : y ∉ df.cols := hmiss.resolve_left (by simp [hxmem])
      rw [col?_error_of_not_mem (by rw [hc]; exact hm)]
      rfl

theorem linePlotMonthly_missing_date {df : DataFrame} {dc vc t xl yl : String} {mi : Int}
    (hm : dc ∉ df.cols) :
    isKeyError (linePlotMonthly df dc vc t xl yl mi) = true := by
  rw [linePlotMonthly_run]
  rw [col?_error_of_not_mem hm]
  rfl

theorem linePlotMonthly_missing_value {df : DataFrame} {dc vc t xl yl : String} {mi : Int}
    {dv dv2 : List Val} (hdc : df.col? dc = .ok dv)
    (hcoerce : mapExcept Val.toDatetime dv = .ok dv2) (hm : vc ∉ df.cols) :
    isKeyError (linePlotMonthly df dc vc t xl yl mi) = true := by
  rw [linePlotMonthly_run, hdc]
  dsimp only
  rw [hcoerce]
  have hdcm : dc ∈ df.cols := col?_mem_of_ok hdc
  have hcols : (df.setCol dc dv2).cols = df.cols := setCol_cols_of_mem dv2 hdcm
  dsimp only
  cases hs : (df.setCol dc dv2).sortValues dc true with
  | error e =>
      obtain rfl := sortValues_error_eq hs
      rfl
  | ok d2 =>
      dsimp only
      have hc2 : d2.cols = df.cols := (sortValues_ok_cols hs).trans hcols
      cases hds : d2.col? dc with
      | error e =>
          obtain rfl := col?_error_eq hds
          rfl
      | ok ds =>
          dsimp only
          rw [col?_error_of_not_mem (by rw [hc2]; exact hm)]
          rfl

theorem scatterPlot_missing {df : DataFrame} {x y t : String} {xl yl : Option String}
    (hmiss : x ∉ df.cols ∨ y ∉ df.cols) :
    isKeyError (scatterPlot df x y t xl yl) = true := by
  rw [scatterPlot_run]
  rcases hmiss with hm | hm
  · rw [col?_error_of_not_mem hm]
    rfl
  · cases hx : df.col? x with
    | error e =>
        obtain rfl := col?_error_eq hx
        rfl
    | ok xs =>
        rw [col?_error_of_not_mem hm]
        rfl

theorem groupedBarWide_missing {df : DataFrame} {x : String} {y_cols : List String}
    {t : String} {xl : Option String} {yl lt : String} {ylabels : Option (List String)}
    (hlab : ylabels = none ∨ ∃ ls, ylabels = some ls ∧ ls.length = y_cols.length)
    (hmiss : x ∉ df.cols ∨ ∃ c ∈ y_cols, c ∉ df.cols) :
    isKeyError (groupedBarWide df x y_cols t xl yl lt ylabels) = true := by
  rw [groupedBarWide_run]
  rcases hmiss with hm | ⟨c, hcmem, hcnot⟩
  · rw [col?_error_of_not_mem hm]
    rfl
  · cases hx : df.col? x with
    | error e =>
        obtain rfl := col?_error_eq hx
        rfl
    | ok xv =>
        have hlen : (match ylabels with | some ls => ls | none => y_cols).length
            = y_cols.length := by
          rcases hlab with rfl | ⟨ls, rfl, hls⟩
          · rfl
          · exact hls
        dsimp only
        rw [if_neg (by simp [hlen])]
        obtain ⟨lab, hpair⟩ := mem_zip_left hcmem (le_of_eq hlen.symm)
        obtain ⟨c', hmap⟩ := mapExcept_error_isKeyError
          (f := fun cl => (df.col? cl.1).map (fun vs => (cl.2, vs)))
          (by
            intro a e he
            dsimp only at he
            cases hca : df.col? a.1 with
            | error e' =>
                rw [hca] at he
                simp only [Except.map] at he
                obtain rfl := (Except.error.injEq _ _).mp he.symm
                exact ⟨a.1, col?_error_eq hca⟩
            | ok vs =>
                rw [hca] at he
                simp [Except.map] at he)
          ⟨(c, lab), hpair, .keyError c, by
            dsimp only
            rw [show df.col? c = .error (.keyError c) from col?_error_of_not_mem hcnot]
            rfl⟩
        rw [hmap]
        rfl

theorem insightMonthlyTrend_missing_date {df : DataFrame} {dc vc : String}
    (hm : dc ∉ df.cols) : isKeyError (insightMonthlyTrend df dc vc) = true := by
  rw [insightMonthlyTrend_run, col?_error_of_not_mem hm]
  rfl

theorem insightMonthlyTrend_missing_value {df : DataFrame} {dc vc : String}
    {dv dv2 : List Val} (hdc : df.col? dc = .ok dv)
    (hcoerce : mapExcept Val.toDatetime dv = .ok dv2) (hm : vc ∉ df.cols) :
    isKeyError (insightMonthlyTrend df dc vc) = true := by
  rw [insightMonthlyTrend_run, hdc]
  dsimp only
  rw [hcoerce]
  dsimp only
  have hvc : vc ∉ (df.setCol dc dv2).cols := by
    rw [setCol_cols_of_mem dv2 (col?_mem_of_ok hdc)]
    exact hm
  rw [col?_error_of_not_mem hvc]
  rfl

/-- C5 counterexample: two calls on tables lacking a requested column
that fail with a `ValueError`, not a lookup/key error.  First,
`line_plot_monthly` on a frame whose only column `m` holds unparseable
text, requesting the absent value column `sales`: the date coercion
raises its parse error before `d[value_col]` is ever read.  Second,
`grouped_bar_wide` with an absent value column `v1` but a mismatched
`y_col_labels`: the label-count `ValueError` is raised before the bar
loop would look `v1` up. -/
theorem c5_missing_column_counterexample :
    ("sales" ∉ badDateFrame.cols ∧
      linePlotMonthly badDateFrame "m" "sales" "t" "x" "y" 3 =
        .error (.valueError "could not convert string to datetime: ##") ∧
      isKeyError (linePlotMonthly badDateFrame "m" "sales" "t" "x" "y" 3) = false) ∧
    ("v1" ∉ oneCatFrame.cols ∧
      groupedBarWide oneCatFrame "cat" ["v1"] "t" none "" "" (some ["a", "b"]) =
        .error (.valueError "y_col_labels must have the same length as y_cols") ∧
      isKeyError
        (groupedBarWide oneCatFrame "cat" ["v1"] "t" none "" "" (some ["a", "b"])) = false) := by
  refine ⟨⟨by decide, by decide, by decide⟩, ⟨by decide, by decide, by decide⟩⟩

/-- C5 (amended): a table lacking a requested column makes every chart
helper fail with a lookup (`KeyError`) failure rather than silently
plotting blank data — except on two paths where another error fires
first: `grouped_bar_wide`'s label-count `ValueError` (when
`y_col_labels` is given with the wrong length) and the date-coercion
parse error of `line_plot_monthly`/`insight_monthly_trend` (when the
date column is present but unparseable); the lookup failure is
guaranteed once those preconditions hold (labels absent or matching,
date coercion succeeding). -/
theorem c5_missing_column_keyerror :
    (∀ (df : DataFrame) (x y t : String) (xl yl : Option String)
        (sb : Option String) (asc : Bool), x ∉ df.cols ∨ y ∉ df.cols →
        isKeyError (barVertical df x y t xl yl sb asc) = true) ∧
    (∀ (df : DataFrame) (x y t : String) (xl yl : Option String) (sd : Bool),
        x ∉ df.cols ∨ y ∉ df.cols →
        isKeyError (barHorizontal df x y t xl yl sd) = true) ∧
    (∀ (df : DataFrame) (dc vc t xl yl : String) (mi : Int), dc ∉ df.cols →
        isKeyError (linePlotMonthly df dc vc t xl yl mi) = true) ∧
    (∀ (df : DataFrame) (dc vc t xl yl : String) (mi : Int) (dv dv2 : List Val),
        df.col? dc = .ok dv → mapExcept Val.toDatetime dv = .ok dv2 → vc ∉ df.cols →
        isKeyError (linePlotMonthly df dc vc t xl yl mi) = true) ∧
    (∀ (df : DataFrame) (x : String) (y_cols : List String) (t : String)
        (xl : Option String) (yl lt : String) (ylabels : Option (List String)),
        (ylabels = none ∨ ∃ ls, ylabels = some ls ∧ ls.length = y_cols.length) →
        (x ∉ df.cols ∨ ∃ c ∈ y_cols, c ∉ df.cols) →
        isKeyError (groupedBarWide df x y_cols t xl yl lt ylabels) = true) ∧
    (∀ (df : DataFrame) (x y t : String) (xl yl : Option String),
        x ∉ df.cols ∨ y ∉ df.cols →
        isKeyError (scatterPlot df x y t xl yl) = true) ∧
    (∀ (df : DataFrame) (dc vc : String), dc ∉ df.cols →
        isKeyError (insightMonthlyTrend df dc vc) = true) ∧
    (∀ (df : DataFrame) (dc vc : String) (dv dv2 : List Val),
        df.col? dc = .ok dv → mapExcept Val.toDatetime dv = .ok dv2 → vc ∉ df.cols →
        isKeyError (insightMonthlyTrend df dc vc) = true) :=
  ⟨fun _ _ _ _ _ _ _ _ h => barVertical_missing h,
   fun _ _ _ _ _ _ _ h => barHorizontal_missing h,
   fun _ _ _ _ _ _ _ h => linePlotMonthly_missing_date h,
   fun _ _ _ _ _ _ _ _ _ h1 h2 h3 => linePlotMonthly_missing_value h1 h2 h3,
   fun _ _ _ _ _ _ _ _ h1 h2 => groupedBarWide_missing h1 h2,
   fun _ _ _ _ _ _ h => scatterPlot_missing h,
   fun _ _ _ h => insightMonthlyTrend_missing_date h,
   fun _ _ _ _ _ h1 h2 h3 => insightMonthlyTrend_missing_value h1 h2 h3⟩

/-- C5 witness: the eight parts of `c5_missing_column_keyerror` applied
to the four-month example frame with one requested column absent in
each call. -/
theorem c5_missing_column_keyerror_witness :
    isKeyError (barVertical trendFrame "Region" "TotalSales" "t" none none none false) = true ∧
    isKeyError (barHorizontal trendFrame "TotalSales" "Region" "t" none none true) = true ∧
    isKeyError (linePlotMonthly trendFrame "Date" "TotalSales" "t" "x" "y" 3) = true ∧
    isKeyError (linePlotMonthly trendFrame "MonthStart" "Qty" "t" "x" "y" 3) = true ∧
    isKeyError (groupedBarWide trendFrame "MonthStart" ["TotalSales", "Other"]
      "t" none "" "" none) = true ∧
    isKeyError (scatterPlot trendFrame "MonthStart" "Qty" "t" none none) = true ∧
    isKeyError (insightMonthlyTrend trendFrame "Date" "TotalSales") = true ∧
    isKeyError (insightMonthlyTrend trendFrame "MonthStart" "Qty") = true :=
  ⟨c5_missing_column_keyerror.1 trendFrame "Region" "TotalSales" "t" none none none false
      (.inl (by decide)),
   c5_missing_column_keyerror.2.1 trendFrame "TotalSales" "Region" "t" none none true
      (.inr (by decide)),
   c5_missing_column_keyerror.2.2.1 trendFrame "Date" "TotalSales" "t" "x" "y" 3 (by decide),
   c5_missing_column_keyerror.2.2.2.1 trendFrame "MonthStart" "Qty" "t" "x" "y" 3
      [.d 24288, .d 24289, .d 24290, .d 24291] [.d 24288, .d 24289, .d 24290, .d 24291]
      (by decide) (by decide) (by decide),
   c5_missing_column_keyerror.2.2.2.2.1 trendFrame "MonthStart" ["TotalSales", "Other"]
      "t" none "" "" none (.inl rfl) (.inr ⟨"Other", by decide, by decide⟩),
   c5_missing_column_keyerror.2.2.2.2.2.1 trendFrame "MonthStart" "Qty" "t" none none
      (.inr (by decide)),
   c5_missing_column_keyerror.2.2.2.2.2.2.1 trendFrame "Date" "TotalSales" (by decide),
   c5_missing_column_keyerror.2.2.2.2.2.2.2 trendFrame "MonthStart" "Qty"
      [.d 24288, .d 24289, .d 24290, .d 24291] [.d 24288, .d 24289, .d 24290, .d 24291]
      (by decide) (by decide) (by decide)⟩

/-! ### Decomposition of successful bar-chart calls -/

theorem barVertical_sorted_ok_elim {df : DataFrame} {x y t sc : String}
    {xl yl : Option String} {asc : Bool} {ch : BarChart} (hsc : sc ≠ "")
    (h : barVertical df x y t xl yl (some sc) asc = .ok ch) :
    ∃ d2, df.sortValues sc asc = .ok d2 ∧
      ∃ ix iy, d2.colIdx? x = some ix ∧ d2.colIdx? y = some iy ∧
        ch = { bars := d2.rows.map (fun r => ((cell r ix).toStr, cell r iy)),
               title := t, xlabel := xl.getD x, ylabel := yl.getD y } := by
  rw [barVertical_run] at h
  dsimp only at h
  rw [if_neg hsc] at h
  cases hs : df.sortValues sc asc with
  | error e => rw [hs] at h; exact absurd h (by simp)
  | ok d2 =>
      rw [hs] at h
      dsimp only at h
      cases hx : d2.col? x with
      | error e => rw [hx] at h; exact absurd h (by simp)
      | ok xs =>
          rw [hx] at h
          dsimp only at h
          cases hy : d2.col? y with
          | error e => rw [hy] at h; exact absurd h (by simp)
          | ok ys =>
              rw [hy] at h
              obtain ⟨ix, hix, rfl⟩ := col?_ok_iff.mp hx
              obtain ⟨iy, hiy, rfl⟩ := col?_ok_iff.mp hy
              simp only [Except.ok.injEq] at h
              refine ⟨d2, rfl, ix, iy, hix, hiy, ?_⟩
              rw [← h]
              rw [List.map_map, List.zip_map']
              rfl

theorem barHorizontal_ok_elim {df : DataFrame} {x y t : String}
    {xl yl : Option String} {sd : Bool} {ch : HBarChart}
    (h : barHorizontal df x y t xl yl sd = .ok ch) :
    ∃ d2, df.sortValues x (!sd) = .ok d2 ∧
      ∃ ix iy, d2.colIdx? x = some ix ∧ d2.colIdx? y = some iy ∧
        ch = { bars := d2.rows.map (fun r => ((cell r iy).toStr, cell r ix)),
               invertedY := true, title := t, xlabel := xl.getD x,
               ylabel := yl.getD y } := by
  rw [barHorizontal_run] at h
  cases hs : df.sortValues x (!sd) with
  | error e => rw [hs] at h; exact absurd h (by simp)
  | ok d2 =>
      rw [hs] at h
      dsimp only at h
      cases hy : d2.col? y with
      | error e => rw [hy] at h; exact absurd h (by simp)
      | ok ys =>
          rw [hy] at h
          dsimp only at h
          cases hx : d2.col? x with
          | error e => rw [hx] at h; exact absurd h (by simp)
          | ok xs =>
              rw [hx] at h
              obtain ⟨ix, hix, rfl⟩ := col?_ok_iff.mp hx
              obtain ⟨iy, hiy, rfl⟩ := col?_ok_iff.mp hy
              simp only [Except.ok.injEq] at h
              refine ⟨d2, rfl, ix, iy, hix, hiy, ?_⟩
              rw [← h]
              rw [List.map_map, List.zip_map']
              rfl

/-! ### Stability of the modelled sort -/

theorem sortValues_pair_sublist_asc {df d2 : DataFrame} {c : String} {i : Nat}
    {a b : List Val} (hi : df.colIdx? c = some i) (hs : df.sortValues c true = .ok d2)
    (hab : Val.leB (cell a i) (cell b i) = true) (hsub : List.Sublist [a, b] df.rows) :
    List.Sublist [a, b] d2.rows := by
  obtain ⟨j, hj, rfl⟩ := sortValues_ok_iff.mp hs
  rw [hi] at hj
  cases hj
  simpa using List.pair_sublist_insertionSort (r := rowRel i) hab hsub

theorem sortValues_pair_sublist_desc {df d2 : DataFrame} {c : String} {i : Nat}
    {a b : List Val} (hi : df.colIdx? c = some i) (hs : df.sortValues c false = .ok d2)
    (hab : Val.leB (cell a i) (cell b i) = true) (hsub : List.Sublist [a, b] df.rows) :
    List.Sublist [b, a] d2.rows := by
  obtain ⟨j, hj, rfl⟩ := sortValues_ok_iff.mp hs
  rw [hi] at hj
  cases hj
  have h1 : List.Sublist [a, b] (df.rows.insertionSort (rowRel i)) :=
    List.pair_sublist_insertionSort (r := rowRel i) hab hsub
  simpa using h1.reverse

/-- C7 counterexample: the descending sort is not stable.  On a frame
whose two rows carry the equal value 5 (categories A then B),
`bar_horizontal` with its default `sort_desc=True` — which sorts by
reversing an ascending argsort, as pandas `nargsort` does — renders B
before A: rows with equal sort keys do not keep their input order. -/
theorem c7_descending_tie_counterexample :
    tieFrame.rows = [[.i 5, .s "A"], [.i 5, .s "B"]] ∧
    barHorizontal tieFrame "x" "y" "t" none none true =
      .ok { bars := [("B", .i 5), ("A", .i 5)], invertedY := true,
            title := "t", xlabel := "x", ylabel := "y" } ∧
    barVertical tieFrame "x" "y" "t" none none (some "x") false =
      .ok { bars := [("5", .s "B"), ("5", .s "A")], title := "t",
            xlabel := "x", ylabel := "y" } :=
  ⟨by decide, by decide, by decide⟩

/-- C7 (amended): the ascending sort of `bar_vertical` is stable — rows
with equal sort keys keep their relative input order among the rendered
bars — while the descending direction (`bar_vertical` with
`ascending=False` and `bar_horizontal` with `sort_desc=True`) reverses
the relative order of rows with equal keys, because it reverses a
stable ascending argsort. -/
theorem c7_sort_tie_order :
    (∀ (df : DataFrame) (x y t sc : String) (xl yl : Option String)
        (a b : List Val) (ch : BarChart) (i : Nat),
        sc ≠ "" → df.colIdx? sc = some i → cell a i = cell b i →
        List.Sublist [a, b] df.rows →
        barVertical df x y t xl yl (some sc) true = .ok ch →
        ∃ ix iy, df.colIdx? x = some ix ∧ df.colIdx? y = some iy ∧
          List.Sublist [((cell a ix).toStr, cell a iy), ((cell b ix).toStr, cell b iy)]
            ch.bars) ∧
    (∀ (df : DataFrame) (x y t sc : String) (xl yl : Option String)
        (a b : List Val) (ch : BarChart) (i : Nat),
        sc ≠ "" → df.colIdx? sc = some i → cell a i = cell b i →
        List.Sublist [a, b] df.rows →
        barVertical df x y t xl yl (some sc) false = .ok ch →
        ∃ ix iy, df.colIdx? x = some ix ∧ df.colIdx? y = some iy ∧
          List.Sublist [((cell b ix).toStr, cell b iy), ((cell a ix).toStr, cell a iy)]
            ch.bars) ∧
    (∀ (df : DataFrame) (x y t : String) (xl yl : Option String)
        (a b : List Val) (ch : HBarChart) (i : Nat),
        df.colIdx? x = some i → cell a i = cell b i →
        List.Sublist [a, b] df.rows →
        barHorizontal df x y t xl yl true = .ok ch →
        ∃ iy, df.colIdx? y = some iy ∧
          List.Sublist [((cell b iy).toStr, cell b i), ((cell a iy).toStr, cell a i)]
            ch.bars) := by
  refine ⟨?_, ?_, ?_⟩
  · intro df x y t sc xl yl a b ch i hne hi hab hsub hok
    obtain ⟨d2, hs, ix, iy, hix, hiy, hch⟩ := barVertical_sorted_ok_elim hne hok
    have hcols := sortValues_ok_cols hs
    have hstab := sortValues_pair_sublist_asc hi hs (by rw [hab]; exact Val.leB_refl _) hsub
    refine ⟨ix, iy, by rw [← colIdx?_congr hcols x]; exact hix,
      by rw [← colIdx?_congr hcols y]; exact hiy, ?_⟩
    rw [hch]
    exact hstab.map (fun r => ((cell r ix).toStr, cell r iy))
  · intro df x y t sc xl yl a b ch i hne hi hab hsub hok
    obtain ⟨d2, hs, ix, iy, hix, hiy, hch⟩ := barVertical_sorted_ok_elim hne hok
    have hcols := sortValues_ok_cols hs
    have hstab := sortValues_pair_sublist_desc hi hs (by rw [hab]; exact Val.leB_refl _) hsub
    refine ⟨ix, iy, by rw [← colIdx?_congr hcols x]; exact hix,
      by rw [← colIdx?_congr hcols y]; exact hiy, ?_⟩
    rw [hch]
    exact hstab.map (fun r => ((cell r ix).toStr, cell r iy))
  · intro df x y t xl yl a b ch i hi hab hsub hok
    obtain ⟨d2, hs, ix, iy, hix, hiy, hch⟩ := barHorizontal_ok_elim hok
    have hcols := sortValues_ok_cols hs
    have hixeq : ix = i := by
      rw [← colIdx?_congr hcols x] at hi
      rw [hi] at hix
      exact (Option.some.injEq _ _).mp hix.symm
    subst hixeq
    have hstab := sortValues_pair_sublist_desc hi hs (by rw [hab]; exact Val.leB_refl _) hsub
    refine ⟨iy, by rw [← colIdx?_congr hcols y]; exact hiy, ?_⟩
    rw [hch]
    exact hstab.map (fun r => ((cell r iy).toStr, cell r ix))

/-- C7 witness: the three parts of `c7_sort_tie_order` applied to the
two-row frame with equal keys. -/
theorem c7_sort_tie_order_witness :
    (∃ ix iy, tieFrame.colIdx? "x" = some ix ∧ tieFrame.colIdx? "y" = some iy ∧
      List.Sublist
        [((cell [Val.i 5, Val.s "A"] ix).toStr, cell [Val.i 5, Val.s "A"] iy),
         ((cell [Val.i 5, Val.s "B"] ix).toStr, cell [Val.i 5, Val.s "B"] iy)]
        ({ bars := [("5", Val.s "A"), ("5", Val.s "B")], title := "t",
           xlabel := "x", ylabel := "y" } : BarChart).bars) ∧
    (∃ ix iy, tieFrame.colIdx? "x" = some ix ∧ tieFrame.colIdx? "y" = some iy ∧
      List.Sublist
        [((cell [Val.i 5, Val.s "B"] ix).toStr, cell [Val.i 5, Val.s "B"] iy),
         ((cell [Val.i 5, Val.s "A"] ix).toStr, cell [Val.i 5, Val.s "A"] iy)]
        ({ bars := [("5", Val.s "B"), ("5", Val.s "A")], title := "t",
           xlabel := "x", ylabel := "y" } : BarChart).bars) ∧
    (∃ iy, tieFrame.colIdx? "y" = some iy ∧
      List.Sublist
        [((cell [Val.i 5, Val.s "B"] iy).toStr, cell [Val.i 5, Val.s "B"] 0),
         ((cell [Val.i 5, Val.s "A"] iy).toStr, cell [Val.i 5, Val.s "A"] 0)]
        ({ bars := [("B", Val.i 5), ("A", Val.i 5)], invertedY := true, title := "t",
           xlabel := "x", ylabel := "y" } : HBarChart).bars) :=
  ⟨c7_sort_tie_order.1 tieFrame "x" "y" "t" "x" none none
      [Val.i 5, Val.s "A"] [Val.i 5, Val.s "B"] _ 0
      (by decide) (by decide) (by decide) (List.Sublist.refl _) (by decide),
   c7_sort_tie_order.2.1 tieFrame "x" "y" "t" "x" none none
      [Val.i 5, Val.s "A"] [Val.i 5, Val.s "B"] _ 0
      (by decide) (by decide) (by decide) (List.Sublist.refl _) (by decide),
   c7_sort_tie_order.2.2 tieFrame "x" "y" "t" none none
      [Val.i 5, Val.s "A"] [Val.i 5, Val.s "B"] _ 0
      (by decide) (by decide) (List.Sublist.refl _) (by decide)⟩

theorem barVertical_none_ok {d2 : DataFrame} {x y t : String} {xl yl : Option String}
    {asc : Bool} {ix iy : Nat} (hix : d2.colIdx? x = some ix) (hiy : d2.colIdx? y = some iy) :
    barVertical d2 x y t xl yl none asc =
      .ok { bars := d2.rows.map (fun r => ((cell r ix).toStr, cell r iy)),
            title := t, xlabel := xl.getD x, ylabel := yl.getD y } := by
  rw [barVertical_run]
  dsimp only
  rw [col?_ok_iff.mpr ⟨ix, hix, rfl⟩]
  dsimp only
  rw [col?_ok_iff.mpr ⟨iy, hiy, rfl⟩]
  dsimp only
  rw [List.map_map, List.zip_map']
  rfl

/-- C3: with `sort_by` set, `bar_vertical` renders the categories in
exactly the order of the table sorted by that column in the requested
direction: the chart it draws is the unsorted rendering of a
permutation of the table's rows that is monotone in the sort key
(non-decreasing for `ascending=True`, non-increasing otherwise).  And
`bar_horizontal` with `sort_desc=True` renders its bars along a
permutation of the rows whose `x` (value-column) keys are
non-increasing, with the category axis inverted. -/
theorem c3_sort_renders_sorted_order :
    (∀ (df : DataFrame) (x y t sc : String) (xl yl : Option String) (asc : Bool)
        (ch : BarChart), sc ≠ "" →
        barVertical df x y t xl yl (some sc) asc = .ok ch →
        ∃ i rows', df.colIdx? sc = some i ∧
          List.Perm rows' df.rows ∧
          (asc = true → rows'.Pairwise (fun r s => rowLe i r s = true)) ∧
          (asc = false → rows'.Pairwise (fun r s => rowLe i s r = true)) ∧
          barVertical ⟨df.cols, rows'⟩ x y t xl yl none asc = .ok ch) ∧
    (∀ (df : DataFrame) (x y t : String) (xl yl : Option String) (ch : HBarChart),
        barHorizontal df x y t xl yl true = .ok ch →
        ∃ i rows', df.colIdx? x = some i ∧
          List.Perm rows' df.rows ∧
          rows'.Pairwise (fun r s => rowLe i s r = true) ∧
          ∃ iy, df.colIdx? y = some iy ∧
            ch.bars = rows'.map (fun r => ((cell r iy).toStr, cell r i)) ∧
            ch.invertedY = true) := by
  constructor
  · intro df x y t sc xl yl asc ch hne hok
    obtain ⟨d2, hs, ix, iy, hix, hiy, hch⟩ := barVertical_sorted_ok_elim hne hok
    obtain ⟨i, hi, -⟩ := sortValues_ok_iff.mp hs
    have hcols := sortValues_ok_cols hs
    have hd2 : (⟨df.cols, d2.rows⟩ : DataFrame) = d2 := by
      cases d2
      simp_all
    refine ⟨i, d2.rows, hi, sortValues_ok_perm hs, ?_, ?_, ?_⟩
    · rintro rfl
      exact sortValues_ok_sorted_asc hs hi
    · rintro rfl
      exact sortValues_ok_sorted_desc hs hi
    · rw [hd2, hch]
      exact barVertical_none_ok hix hiy
  · intro df x y t xl yl ch hok
    obtain ⟨d2, hs, ix, iy, hix, hiy, hch⟩ := barHorizontal_ok_elim hok
    obtain ⟨i, hi, -⟩ := sortValues_ok_iff.mp hs
    have hcols := sortValues_ok_cols hs
    have hixeq : ix = i := by
      rw [← colIdx?_congr hcols x] at hi
      rw [hi] at hix
      exact (Option.some.injEq _ _).mp hix.symm
    subst hixeq
    refine ⟨ix, d2.rows, hi, sortValues_ok_perm hs,
      sortValues_ok_sorted_desc hs hi, iy,
      by rw [← colIdx?_congr hcols y]; exact hiy, by rw [hch], by rw [hch]⟩

/-- C3 witness: both parts of `c3_sort_renders_sorted_order` applied to
a three-row frame with values 3, 1, 2. -/
theorem c3_sort_renders_sorted_order_witness :
    (∃ i rows', threeRowFrame.colIdx? "val" = some i ∧
      List.Perm rows' threeRowFrame.rows ∧
      (true = true → rows'.Pairwise (fun r s => rowLe i r s = true)) ∧
      (true = false → rows'.Pairwise (fun r s => rowLe i s r = true)) ∧
      barVertical ⟨threeRowFrame.cols, rows'⟩ "cat" "val" "t" none none none true =
        .ok { bars := [("b", .i 1), ("c", .i 2), ("a", .i 3)], title := "t",
              xlabel := "cat", ylabel := "val" }) ∧
    (∃ i rows', threeRowFrame.colIdx? "val" = some i ∧
      List.Perm rows' threeRowFrame.rows ∧
      rows'.Pairwise (fun r s => rowLe i s r = true) ∧
      ∃ iy, threeRowFrame.colIdx? "cat" = some iy ∧
        ({ bars := [("a", .i 3), ("c", .i 2), ("b", .i 1)], invertedY := true,
           title := "t", xlabel := "val", ylabel := "cat" } : HBarChart).bars =
          rows'.map (fun r => ((cell r iy).toStr, cell r i)) ∧
        ({ bars := [("a", .i 3), ("c", .i 2), ("b", .i 1)], invertedY := true,
           title := "t", xlabel := "val", ylabel := "cat" } : HBarChart).invertedY = true) :=
  ⟨c3_sort_renders_sorted_order.1 threeRowFrame "cat" "val" "t" "val" none none true _
      (by decide) (by decide),
   c3_sort_renders_sorted_order.2 threeRowFrame "val" "cat" "t" none none _ (by decide)⟩

/-- C4: whatever the input row order, `line_plot_monthly` renders its
points in non-decreasing order of the (date-coerced) date column, and
the points drawn are exactly (a permutation of) the coerced table's
`(date, value)` pairs. -/
theorem c4_line_plot_sorted_dates :
    ∀ (df : DataFrame) (dc vc t xl yl : String) (mi : Int) (ch : LineChart),
      linePlotMonthly df dc vc t xl yl mi = .ok ch →
      ch.points.Pairwise (fun p q => Val.leB p.1 q.1 = true) ∧
      ∃ dv dv2 i_d i_v, df.col? dc = .ok dv ∧ mapExcept Val.toDatetime dv = .ok dv2 ∧
        (df.setCol dc dv2).colIdx? dc = some i_d ∧
        (df.setCol dc dv2).colIdx? vc = some i_v ∧
        List.Perm ch.points
          ((df.setCol dc dv2).rows.map (fun r => (cell r i_d, cell r i_v))) := by
  intro df dc vc t xl yl mi ch h
  rw [linePlotMonthly_run] at h
  cases hdv : df.col? dc with
  | error e => rw [hdv] at h; exact absurd h (by simp)
  | ok dv =>
      rw [hdv] at h
      dsimp only at h
      cases hco : mapExcept Val.toDatetime dv with
      | error e => rw [hco] at h; exact absurd h (by simp)
      | ok dv2 =>
          rw [hco] at h
          dsimp only at h
          cases hs : (df.setCol dc dv2).sortValues dc true with
          | error e => rw [hs] at h; exact absurd h (by simp)
          | ok d2 =>
              rw [hs] at h
              dsimp only at h
              cases hds : d2.col? dc with
              | error e => rw [hds] at h; exact absurd h (by simp)
              | ok ds =>
                  rw [hds] at h
                  dsimp only at h
                  cases hvs : d2.col? vc with
                  | error e => rw [hvs] at h; exact absurd h (by simp)
                  | ok vs =>
                      rw [hvs] at h
                      simp only [Except.ok.injEq] at h
                      obtain ⟨i_d, hid, rfl⟩ := col?_ok_iff.mp hds
                      obtain ⟨i_v, hiv, rfl⟩ := col?_ok_iff.mp hvs
                      have hcols := sortValues_ok_cols hs
                      obtain ⟨j, hj, -⟩ := sortValues_ok_iff.mp hs
                      have hjid : i_d = j := by
                        rw [← colIdx?_congr hcols dc] at hj
                        rw [hj] at hid
                        exact (Option.some.injEq _ _).mp hid.symm
                      subst hjid
                      have hpts : ch.points = d2.rows.map (fun r => (cell r i_d, cell r i_v)) := by
                        rw [← h]
                        rw [List.zip_map']
                      constructor
                      · rw [hpts]
                        refine List.pairwise_map.mpr ?_
                        exact sortValues_ok_sorted_asc hs hj
                      · refine ⟨dv, dv2, i_d, i_v,
                          rfl, hco, hj, by rw [colIdx?_congr hcols vc] at hiv; exact hiv, ?_⟩
                        rw [hpts]
                        exact (sortValues_ok_perm hs).map _

/-- C4 witness: `c4_line_plot_sorted_dates` applied to the four-month
frame whose rows arrive out of chronological order. -/
theorem c4_line_plot_sorted_dates_witness :
    ({ points := [(.d 24288, .i 100), (.d 24289, .i 150), (.d 24290, .i 90),
                  (.d 24291, .i 200)], title := "t", xlabel := "Month",
       ylabel := "Value", monthInterval := 3 } : LineChart).points.Pairwise
        (fun p q => Val.leB p.1 q.1 = true) ∧
    ∃ dv dv2 i_d i_v, shuffledTrendFrame.col? "MonthStart" = .ok dv ∧
      mapExcept Val.toDatetime dv = .ok dv2 ∧
      (shuffledTrendFrame.setCol "MonthStart" dv2).colIdx? "MonthStart" = some i_d ∧
      (shuffledTrendFrame.setCol "MonthStart" dv2).colIdx? "TotalSales" = some i_v ∧
      List.Perm
        ({ points := [(.d 24288, .i 100), (.d 24289, .i 150), (.d 24290, .i 90),
                      (.d 24291, .i 200)], title := "t", xlabel := "Month",
           ylabel := "Value", monthInterval := 3 } : LineChart).points
        ((shuffledTrendFrame.setCol "MonthStart" dv2).rows.map
          (fun r => (cell r i_d, cell r i_v))) :=
  c4_line_plot_sorted_dates shuffledTrendFrame "MonthStart" "TotalSales" "t" "Month"
    "Value" 3 _ (by decide)

theorem idxmax_mem : ∀ {l : List Val} {j : Nat} {m : Val}, idxmax l = some (j, m) → m ∈ l
  | [], _, _, h => by simp [idxmax] at h
  | v :: vs, j, m, h => by
      simp only [idxmax] at h
      cases hm : idxmax vs with
      | none =>
          rw [hm] at h
          simp only [Option.some.injEq, Prod.mk.injEq] at h
          obtain ⟨-, rfl⟩ := h
          exact List.mem_cons_self _ _
      | some jm =>
          rw [hm] at h
          dsimp only at h
          split at h <;> simp only [Option.some.injEq, Prod.mk.injEq] at h <;>
            obtain ⟨-, rfl⟩ := h
          · exact List.mem_cons_self _ _
          · exact List.mem_cons_of_mem _ (idxmax_mem hm)

theorem idxmin_mem : ∀ {l : List Val} {j : Nat} {m : Val}, idxmin l = some (j, m) → m ∈ l
  | [], _, _, h => by simp [idxmin] at h
  | v :: vs, j, m, h => by
      simp only [idxmin] at h
      cases hm : idxmin vs with
      | none =>
          rw [hm] at h
          simp only [Option.some.injEq, Prod.mk.injEq] at h
          obtain ⟨-, rfl⟩ := h
          exact List.mem_cons_self _ _
      | some jm =>
          rw [hm] at h
          dsimp only at h
          split at h <;> simp only [Option.some.injEq, Prod.mk.injEq] at h <;>
            obtain ⟨-, rfl⟩ := h
          · exact List.mem_cons_self _ _
          · exact List.mem_cons_of_mem _ (idxmin_mem hm)

/-- C10: `insight_monthly_trend` never reorders its input.  For every
successful call, the reported start/end figures come from the first and
last rows by position of the (coerced but unsorted) table, so on a
table whose rows are not in ascending date order they need not be the
chronologically earliest/latest months — exhibited concretely by the
shuffled four-month frame, whose summary reports "from 2024-03 to
2024-02" even though the date column contains 2024-01 — while the
reported highest/lowest values are still the true column-wise
maximum/minimum. -/
theorem c10_insight_positional :
    (∀ (df : DataFrame) (dc vc : String) (ins : Insight),
        insightMonthlyTrend df dc vc = .ok ins →
        ∃ dv dv2 vals, df.col? dc = .ok dv ∧ mapExcept Val.toDatetime dv = .ok dv2 ∧
          (df.setCol dc dv2).col? vc = .ok vals ∧
          ins.startVal = vals.getD 0 (.i 0) ∧ ins.endVal = vals.getLastD (.i 0) ∧
          ins.startMonth = fmtMonth (dv2.getD 0 (.i 0)).dateCodeD ∧
          ins.endMonth = fmtMonth (dv2.getLastD (.i 0)).dateCodeD ∧
          ins.peakVal ∈ vals ∧ (∀ v ∈ vals, Val.leB v ins.peakVal = true) ∧
          ins.lowVal ∈ vals ∧ (∀ v ∈ vals, Val.leB ins.lowVal v = true)) ∧
    (shuffledTrendFrame.col? "MonthStart" =
        .ok [.d 24290, .d 24288, .d 24291, .d 24289] ∧
      fmtMonth 24288 = "2024-01" ∧
      insightMonthlyTrend shuffledTrendFrame "MonthStart" "TotalSales" =
        .ok { direction := "upward", startMonth := "2024-03", startVal := .i 90,
              endMonth := "2024-02", endVal := .i 150,
              peakMonth := "2024-04", peakVal := .i 200,
              lowMonth := "2024-03", lowVal := .i 90 }) := by
  constructor
  · intro df dc vc ins h
    rw [insightMonthlyTrend_run] at h
    cases hdv : df.col? dc with
    | error e => rw [hdv] at h; exact absurd h (by simp)
    | ok dv =>
        rw [hdv] at h
        dsimp only at h
        cases hco : mapExcept Val.toDatetime dv with
        | error e => rw [hco] at h; exact absurd h (by simp)
        | ok dv2 =>
            rw [hco] at h
            dsimp only at h
            cases hv : (df.setCol dc dv2).col? vc with
            | error e => rw [hv] at h; exact absurd h (by simp)
            | ok vals =>
                rw [hv] at h
                dsimp only at h
                cases hmx : idxmax vals with
                | none => rw [hmx] at h; exact absurd h (by simp)
                | some pk =>
                    obtain ⟨jx, mx⟩ := pk
                    rw [hmx] at h
                    cases hmn : idxmin vals with
                    | none => rw [hmn] at h; exact absurd h (by simp)
                    | some lo =>
                        obtain ⟨jn, mn⟩ := lo
                        rw [hmn] at h
                        simp only [Except.ok.injEq] at h
                        obtain ⟨hgx, hax⟩ := idxmax_spec hmx
                        obtain ⟨hgn, han⟩ := idxmin_spec hmn
                        refine ⟨dv, dv2, vals, rfl, hco, hv, ?_, ?_, ?_, ?_, ?_, ?_, ?_, ?_⟩
                        · rw [← h]
                        · rw [← h]
                        · rw [← h]
                        · rw [← h]
                        · rw [← h]
                          dsimp only
                          rw [hgx]
                          exact idxmax_mem hmx
                        · intro v hv2
                          rw [← h]
                          dsimp only
                          rw [hgx]
                          exact hax v hv2
                        · rw [← h]
                          dsimp only
                          rw [hgn]
                          exact idxmin_mem hmn
                        · intro v hv2
                          rw [← h]
                          dsimp only
                          rw [hgn]
                          exact han v hv2
  · exact ⟨by decide, by decide, by decide⟩

/-- C10 witness: the universal part of `c10_insight_positional` applied
to the shuffled four-month frame. -/
theorem c10_insight_positional_witness :
    ∃ ins, insightMonthlyTrend shuffledTrendFrame "MonthStart" "TotalSales" = .ok ins ∧
      ∃ dv dv2 vals, shuffledTrendFrame.col? "MonthStart" = .ok dv ∧
        mapExcept Val.toDatetime dv = .ok dv2 ∧
        (shuffledTrendFrame.setCol "MonthStart" dv2).col? "TotalSales" = .ok vals ∧
        ins.startVal = vals.getD 0 (.i 0) ∧ ins.endVal = vals.getLastD (.i 0) ∧
        ins.startMonth = fmtMonth (dv2.getD 0 (.i 0)).dateCodeD ∧
        ins.endMonth = fmtMonth (dv2.getLastD (.i 0)).dateCodeD ∧
        ins.peakVal ∈ vals ∧ (∀ v ∈ vals, Val.leB v ins.peakVal = true) ∧
        ins.lowVal ∈ vals ∧ (∀ v ∈ vals, Val.leB ins.lowVal v = true) :=
  ⟨{ direction := "upward", startMonth := "2024-03", startVal := .i 90,
     endMonth := "2024-02", endVal := .i 150, peakMonth := "2024-04",
     peakVal := .i 200, lowMonth := "2024-03", lowVal := .i 90 },
   by decide,
   c10_insight_positional.1 shuffledTrendFrame "MonthStart" "TotalSales" _ (by decide)⟩

/-! ### Heap shapes of the six helpers

Every helper only allocates fresh frames (the `df.copy()` and the
frames `sort_values` returns) and writes only through the copy's
reference; the lemmas below record the possible final heaps, from which
the no-mutation claim follows. -/

theorem bar_vertical_heapshape (h : Heap) (df : Ref) (x y t : String)
    (xl yl : Option String) (sb : Option String) (asc : Bool) :
    (bar_vertical h df x y t xl yl sb asc).2 = (h.alloc (h.read df)).1 ∨
    ∃ d2, (bar_vertical h df x y t xl yl sb asc).2 =
      ((h.alloc (h.read df)).1.alloc d2).1 := by
  simp only [bar_vertical]
  cases sb with
  | none =>
      dsimp only
      cases hx : ((h.alloc (h.read df)).1.read (h.alloc (h.read df)).2).col? x with
      | error e => left; rfl
      | ok xs =>
          dsimp only
          cases hy : ((h.alloc (h.read df)).1.read (h.alloc (h.read df)).2).col? y with
          | error e => left; rfl
          | ok ys => left; rfl
  | some sc =>
      rcases eq_or_ne sc "" with rfl | hsc
      · dsimp only
        rw [if_pos rfl]
        dsimp only
        cases hx : ((h.alloc (h.read df)).1.read (h.alloc (h.read df)).2).col? x with
        | error e => left; rfl
        | ok xs =>
            dsimp only
            cases hy : ((h.alloc (h.read df)).1.read (h.alloc (h.read df)).2).col? y with
            | error e => left; rfl
            | ok ys => left; rfl
      · dsimp only
        rw [if_neg hsc]
        cases hs : ((h.alloc (h.read df)).1.read (h.alloc (h.read df)).2).sortValues sc asc with
        | error e => left; rfl
        | ok d2 =>
            dsimp only
            cases hx : (((h.alloc (h.read df)).1.alloc d2).1.read
                ((h.alloc (h.read df)).1.alloc d2).2).col? x with
            | error e => right; exact ⟨d2, rfl⟩
            | ok xs =>
                dsimp only
                cases hy : (((h.alloc (h.read df)).1.alloc d2).1.read
                    ((h.alloc (h.read df)).1.alloc d2).2).col? y with
                | error e => right; exact ⟨d2, rfl⟩
                | ok ys => right; exact ⟨d2, rfl⟩

theorem bar_horizontal_heapshape (h : Heap) (df : Ref) (x y t : String)
    (xl yl : Option String) (sd : Bool) :
    (bar_horizontal h df x y t xl yl sd).2 = (h.alloc (h.read df)).1 ∨
    ∃ d2, (bar_horizontal h df x y t xl yl sd).2 =
      ((h.alloc (h.read df)).1.alloc d2).1 := by
  simp only [bar_horizontal]
  cases hs : ((h.alloc (h.read df)).1.read (h.alloc (h.read df)).2).sortValues x (!sd) with
  | error e => left; rfl
  | ok d2 =>
      dsimp only
      cases hy : (((h.alloc (h.read df)).1.alloc d2).1.read
          ((h.alloc (h.read df)).1.alloc d2).2).col? y with
      | error e => right; exact ⟨d2, rfl⟩
      | ok ys =>
          dsimp only
          cases hx : (((h.alloc (h.read df)).1.alloc d2).1.read
              ((h.alloc (h.read df)).1.alloc d2).2).col? x with
          | error e => right; exact ⟨d2, rfl⟩
          | ok xs => right; exact ⟨d2, rfl⟩

theorem line_plot_monthly_heapshape (h : Heap) (df : Ref) (dc vc t xl yl : String)
    (mi : Int) :
    (line_plot_monthly h df dc vc t xl yl mi).2 = (h.alloc (h.read df)).1 ∨
    (∃ d1, (line_plot_monthly h df dc vc t xl yl mi).2 =
      (h.alloc (h.read df)).1.write (h.alloc (h.read df)).2 d1) ∨
    (∃ d1 d2, (line_plot_monthly h df dc vc t xl yl mi).2 =
      (((h.alloc (h.read df)).1.write (h.alloc (h.read df)).2 d1).alloc d2).1) := by
  simp only [line_plot_monthly]
  cases hdv : ((h.alloc (h.read df)).1.read (h.alloc (h.read df)).2).col? dc with
  | error e => left; rfl
  | ok dv =>
      dsimp only
      cases hm : mapExcept Val.toDatetime dv with
      | error e => left; rfl
      | ok dv2 =>
          dsimp only
          generalize ((h.alloc (h.read df)).1.read (h.alloc (h.read df)).2).setCol dc dv2 = d1
          cases hs : (((h.alloc (h.read df)).1.write (h.alloc (h.read df)).2 d1).read
              (h.alloc (h.read df)).2).sortValues dc true with
          | error e => right; left; exact ⟨d1, rfl⟩
          | ok d2 =>
              dsimp only
              cases hds : ((((h.alloc (h.read df)).1.write (h.alloc (h.read df)).2 d1).alloc
                  d2).1.read (((h.alloc (h.read df)).1.write (h.alloc
                  (h.read df)).2 d1).alloc d2).2).col? dc with
              | error e => right; right; exact ⟨d1, d2, rfl⟩
              | ok ds =>
                  dsimp only
                  cases hvs : ((((h.alloc (h.read df)).1.write (h.alloc (h.read df)).2
                      d1).alloc d2).1.read (((h.alloc (h.read df)).1.write (h.alloc
                      (h.read df)).2 d1).alloc d2).2).col? vc with
                  | error e => right; right; exact ⟨d1, d2, rfl⟩
                  | ok vs => right; right; exact ⟨d1, d2, rfl⟩

theorem grouped_bar_wide_heapshape (h : Heap) (df : Ref) (x : String)
    (y_cols : List String) (t : String) (xl : Option String) (yl lt : String)
    (ylabels : Option (List String)) :
    (grouped_bar_wide h df x y_cols t xl yl lt ylabels).2 = (h.alloc (h.read df)).1 := by
  simp only [grouped_bar_wide]
  cases hx : ((h.alloc (h.read df)).1.read (h.alloc (h.read df)).2).col? x with
  | error e => rfl
  | ok xv =>
      dsimp only
      split
      · rfl
      · cases hm : mapExcept
            (fun cl => (((h.alloc (h.read df)).1.read (h.alloc (h.read df)).2).col?
              cl.1).map (fun vs => (cl.2, vs)))
            (y_cols.zip (match ylabels with | some ls => ls | none => y_cols)) with
        | error e => rfl
        | ok series => rfl

theorem scatter_plot_heapshape (h : Heap) (df : Ref) (x y t : String)
    (xl yl : Option String) :
    (scatter_plot h df x y t xl yl).2 = h := by
  simp only [scatter_plot]
  cases hx : (h.read df).col? x with
  | error e => rfl
  | ok xs =>
      dsimp only
      cases hy : (h.read df).col? y with
      | error e => rfl
      | ok ys => rfl

theorem insight_monthly_trend_heapshape (h : Heap) (df : Ref) (dc vc : String) :
    (insight_monthly_trend h df dc vc).2 = (h.alloc (h.read df)).1 ∨
    ∃ d1, (insight_monthly_trend h df dc vc).2 =
      (h.alloc (h.read df)).1.write (h.alloc (h.read df)).2 d1 := by
  simp only [insight_monthly_trend]
  cases hdv : ((h.alloc (h.read df)).1.read (h.alloc (h.read df)).2).col? dc with
  | error e => left; rfl
  | ok dv =>
      dsimp only
      cases hm : mapExcept Val.toDatetime dv with
      | error e => left; rfl
      | ok dv2 =>
          dsimp only
          generalize ((h.alloc (h.read df)).1.read (h.alloc (h.read df)).2).setCol dc dv2 = d1
          cases hv : (((h.alloc (h.read df)).1.write (h.alloc (h.read df)).2 d1).read
              (h.alloc (h.read df)).2).col? vc with
          | error e => right; exact ⟨d1, rfl⟩
          | ok vals =>
              dsimp only
              cases hmx : idxmax vals with
              | none =>
                  cases hmn : idxmin vals with
                  | none => right; exact ⟨d1, rfl⟩
                  | some lo => right; exact ⟨d1, rfl⟩
              | some pk =>
                  cases hmn : idxmin vals with
                  | none => right; exact ⟨d1, rfl⟩
                  | some lo => right; exact ⟨d1, rfl⟩

theorem read_after_alloc_alloc {h : Heap} {r : Ref} (hr : r < h.length)
    (X d2 : DataFrame) : ((h.alloc X).1.alloc d2).1.read r = h.read r := by
  have h1 : r < (h.alloc X).1.length := by
    rw [Heap.length_alloc]
    exact Nat.lt_succ_of_lt hr
  rw [Heap.read_alloc_lt d2 h1, Heap.read_alloc_lt X hr]

theorem read_after_alloc_write {h : Heap} {r : Ref} (hr : r < h.length)
    (X Y : DataFrame) : ((h.alloc X).1.write (h.alloc X).2 Y).read r = h.read r := by
  have h1 : r ≠ (h.alloc X).2 := by
    rw [Heap.alloc_ref]
    exact Nat.ne_of_lt hr
  rw [Heap.read_write_ne Y h1, Heap.read_alloc_lt X hr]

theorem read_after_alloc_write_alloc {h : Heap} {r : Ref} (hr : r < h.length)
    (X Y d2 : DataFrame) :
    (((h.alloc X).1.write (h.alloc X).2 Y).alloc d2).1.read r = h.read r := by
  have h1 : r < ((h.alloc X).1.write (h.alloc X).2 Y).length := by
    rw [Heap.length_write, Heap.length_alloc]
    exact Nat.lt_succ_of_lt hr
  rw [Heap.read_alloc_lt d2 h1]
  exact read_after_alloc_write hr X Y

/-- C8: no chart helper mutates the frame the caller passed in.  Each
call only allocates fresh objects (`df.copy()` and the frames
`sort_values` returns) and writes only through the copy's reference, so
for every heap and every allocated reference the frame read through
that reference after the call — whether the call drew its chart or
raised — is the frame read before it. -/
theorem c8_no_mutation :
    ∀ (h : Heap) (df : Ref), df < h.length →
      (∀ (x y t : String) (xl yl : Option String) (sb : Option String) (asc : Bool),
        ((bar_vertical h df x y t xl yl sb asc).2).read df = h.read df) ∧
      (∀ (x y t : String) (xl yl : Option String) (sd : Bool),
        ((bar_horizontal h df x y t xl yl sd).2).read df = h.read df) ∧
      (∀ (dc vc t xl yl : String) (mi : Int),
        ((line_plot_monthly h df dc vc t xl yl mi).2).read df = h.read df) ∧
      (∀ (x : String) (y_cols : List String) (t : String) (xl : Option String)
        (yl lt : String) (ylabels : Option (List String)),
        ((grouped_bar_wide h df x y_cols t xl yl lt ylabels).2).read df = h.read df) ∧
      (∀ (x y t : String) (xl yl : Option String),
        ((scatter_plot h df x y t xl yl).2).read df = h.read df) ∧
      (∀ (dc vc : String),
        ((insight_monthly_trend h df dc vc).2).read df = h.read df) := by
  intro h df hr
  refine ⟨?_, ?_, ?_, ?_, ?_, ?_⟩
  · intro x y t xl yl sb asc
    rcases bar_vertical_heapshape h df x y t xl yl sb asc with hs | ⟨d2, hs⟩
    · rw [hs, Heap.read_alloc_lt _ hr]
    · rw [hs, read_after_alloc_alloc hr]
  · intro x y t xl yl sd
    rcases bar_horizontal_heapshape h df x y t xl yl sd with hs | ⟨d2, hs⟩
    · rw [hs, Heap.read_alloc_lt _ hr]
    · rw [hs, read_after_alloc_alloc hr]
  · intro dc vc t xl yl mi
    rcases line_plot_monthly_heapshape h df dc vc t xl yl mi with hs | ⟨d1, hs⟩ | ⟨d1, d2, hs⟩
    · rw [hs, Heap.read_alloc_lt _ hr]
    · rw [hs, read_after_alloc_write hr]
    · rw [hs, read_after_alloc_write_alloc hr]
  · intro x y_cols t xl yl lt ylabels
    rw [grouped_bar_wide_heapshape, Heap.read_alloc_lt _ hr]
  · intro x y t xl yl
    rw [scatter_plot_heapshape]
  · intro dc vc
    rcases insight_monthly_trend_heapshape h df dc vc with hs | ⟨d1, hs⟩
    · rw [hs, Heap.read_alloc_lt _ hr]
    · rw [hs, read_after_alloc_write hr]

/-- C8 witness: `c8_no_mutation` applied to the singleton heap holding
the four-month example frame. -/
theorem c8_no_mutation_witness :
    ((bar_vertical [trendFrame] 0 "MonthStart" "TotalSales" "t" none none
        (some "TotalSales") false).2).read 0 = Heap.read [trendFrame] 0 ∧
    ((bar_horizontal [trendFrame] 0 "TotalSales" "MonthStart" "t" none none
        true).2).read 0 = Heap.read [trendFrame] 0 ∧
    ((line_plot_monthly [trendFrame] 0 "MonthStart" "TotalSales" "t" "Month" "Value"
        3).2).read 0 = Heap.read [trendFrame] 0 ∧
    ((grouped_bar_wide [trendFrame] 0 "MonthStart" ["TotalSales"] "t" none "" ""
        none).2).read 0 = Heap.read [trendFrame] 0 ∧
    ((scatter_plot [trendFrame] 0 "MonthStart" "TotalSales" "t" none
        none).2).read 0 = Heap.read [trendFrame] 0 ∧
    ((insight_monthly_trend [trendFrame] 0 "MonthStart"
        "TotalSales").2).read 0 = Heap.read [trendFrame] 0 :=
  ⟨(c8_no_mutation [trendFrame] 0 (by decide)).1 "MonthStart" "TotalSales" "t" none none
      (some "TotalSales") false,
   (c8_no_mutation [trendFrame] 0 (by decide)).2.1 "TotalSales" "MonthStart" "t" none none true,
   (c8_no_mutation [trendFrame] 0 (by decide)).2.2.1 "MonthStart" "TotalSales" "t" "Month"
      "Value" 3,
   (c8_no_mutation [trendFrame] 0 (by decide)).2.2.2.1 "MonthStart" ["TotalSales"] "t" none
      "" "" none,
   (c8_no_mutation [trendFrame] 0 (by decide)).2.2.2.2.1 "MonthStart" "TotalSales" "t"
      none none,
   (c8_no_mutation [trendFrame] 0 (by decide)).2.2.2.2.2 "MonthStart" "TotalSales"⟩
